import Mathlib

/-!
Shallow embedding of the position-lifecycle and decision engine of the
candelacharts-odds trading bot.

Numeric model: JavaScript numbers are embedded as exact rationals (ℚ);
timestamps (milliseconds) as ℤ.  Division by zero follows the ℚ convention
(x / 0 = 0); no exercised code path divides by zero except where noted.
The only genuinely irrational quantity, the standard deviation
sqrt(variance) of calculateStandardDeviation, never escapes the strategy:
it is only compared against rational bounds, so we keep the exact variance
and decide those comparisons by squaring (sqrtLt / sqrtGt below).

Log strings are irrelevant to control flow except through the LENGTH of
the bullish/bearish signal arrays; each push site is represented by a
distinct SignalTag constructor, and each return site's reason string by a
ReasonTag / CloseReason constructor.
-/

/- ===================================================================
   Cross detection utilities (src/unnamed/part_007, crosses.ts)
   =================================================================== -/

/-- Element of a series at index i (series are long enough at all use sites,
the default 0 is never read under the length guards). -/
def seriesGet (l : List ℚ) (i : Nat) : ℚ := l.getD i 0

/-- crossUp: series1 crossed above series2 (current strictly above, previous
at-or-below), looking back `lookback` periods (the source default 2 is passed
explicitly at every call site). -/
def crossUp (series1 series2 : List ℚ) (lookback : Nat) : Bool :=
  if series1.length < lookback || series2.length < lookback then false
  else
    let current1 := seriesGet series1 (series1.length - 1)
    let current2 := seriesGet series2 (series2.length - 1)
    let prev1 := seriesGet series1 (series1.length - lookback)
    let prev2 := seriesGet series2 (series2.length - lookback)
    decide (current1 > current2) && decide (prev1 ≤ prev2)

/-- crossDown: series1 crossed below series2. -/
def crossDown (series1 series2 : List ℚ) (lookback : Nat) : Bool :=
  if series1.length < lookback || series2.length < lookback then false
  else
    let current1 := seriesGet series1 (series1.length - 1)
    let current2 := seriesGet series2 (series2.length - 1)
    let prev1 := seriesGet series1 (series1.length - lookback)
    let prev2 := seriesGet series2 (series2.length - lookback)
    decide (current1 < current2) && decide (prev1 ≥ prev2)

/-- crossAbove: a series crossed above a constant threshold. -/
def crossAbove (series : List ℚ) (threshold : ℚ) (lookback : Nat) : Bool :=
  if series.length < lookback then false
  else
    let current := seriesGet series (series.length - 1)
    let prev := seriesGet series (series.length - lookback)
    decide (current > threshold) && decide (prev ≤ threshold)

/-- crossBelow: a series crossed below a constant threshold. -/
def crossBelow (series : List ℚ) (threshold : ℚ) (lookback : Nat) : Bool :=
  if series.length < lookback then false
  else
    let current := seriesGet series (series.length - 1)
    let prev := seriesGet series (series.length - lookback)
    decide (current < threshold) && decide (prev ≥ threshold)

/-- isAbove: last element of series1 strictly above last element of series2. -/
def isAbove (series1 series2 : List ℚ) : Bool :=
  if series1.length = 0 || series2.length = 0 then false
  else decide (seriesGet series1 (series1.length - 1) > seriesGet series2 (series2.length - 1))

/-- isBelow: last element of series1 strictly below last element of series2. -/
def isBelow (series1 series2 : List ℚ) : Bool :=
  if series1.length = 0 || series2.length = 0 then false
  else decide (seriesGet series1 (series1.length - 1) < seriesGet series2 (series2.length - 1))

/-- The variance computed inside calculateStandardDeviation (which returns
sqrt of this value, or null when fewer than `period` points are given).
`values.slice(-period)` is `drop (length - period)` for 0 < period ≤ length. -/
def calculateVariance (values : List ℚ) (period : Nat) : Option ℚ :=
  if values.length < period then none
  else
    let recentValues := values.drop (values.length - period)
    let mean := recentValues.sum / (period : ℚ)
    let variance := (recentValues.map (fun v => (v - mean) ^ 2)).sum / (period : ℚ)
    some variance

/-- Decides sqrt v < b for v ≥ 0 without leaving ℚ. -/
def sqrtLt (v b : ℚ) : Bool := decide (0 < b) && decide (v < b ^ 2)

/-- Decides sqrt v > b for v ≥ 0 without leaving ℚ. -/
def sqrtGt (v b : ℚ) : Bool := decide (b < 0) || decide (b ^ 2 < v)

/-- Direction of the current price relative to the strike. -/
inductive StrikeDirection
  | above
  | below
  | atStrike
deriving DecidableEq, Repr

/-- Result of calculateStrikeDistance. -/
structure StrikeDistance where
  absolute : ℚ
  percentage : ℚ
  direction : StrikeDirection
deriving DecidableEq, Repr

/-- calculateStrikeDistance: signed distance of current price from strike,
with the "at" band when the absolute percentage is below 0.01. -/
def calculateStrikeDistance (currentPrice strikePrice : ℚ) : StrikeDistance :=
  let absolute := currentPrice - strikePrice
  let percentage := absolute / strikePrice * 100
  let direction :=
    if |percentage| < (0.01 : ℚ) then StrikeDirection.atStrike
    else if absolute > 0 then StrikeDirection.above
    else StrikeDirection.below
  ⟨absolute, percentage, direction⟩

/- ===================================================================
   Configuration (src/src/config/config.ts, CONFIG.trading)
   =================================================================== -/

/-- The four ascending volatility-exit thresholds (percent). -/
structure StdevLevels where
  stdev1 : ℚ
  stdev2 : ℚ
  stdev3 : ℚ
  stdev4 : ℚ
deriving DecidableEq, Repr

/-- CONFIG.trading. -/
structure TradingConfig where
  profitTargetUsd : ℚ
  maxArbitragePositions : Nat
  maxTechnicalPositions : Nat
  autoClearMinutes : Int
  strikeGapPercent : ℚ
  stdevLevels : StdevLevels
  maxOrderRetries : Nat
  minTimeToExpiryMin : ℚ
deriving DecidableEq, Repr

/-- The defaults from config.ts (no environment overrides). -/
def defaultTradingConfig : TradingConfig :=
  { profitTargetUsd := 20
    maxArbitragePositions := 3
    maxTechnicalPositions := 1
    autoClearMinutes := 15
    strikeGapPercent := 0.015
    stdevLevels := { stdev1 := 0.050, stdev2 := 0.100, stdev3 := 0.150, stdev4 := 0.200 }
    maxOrderRetries := 5
    minTimeToExpiryMin := 5 }

/- ===================================================================
   Technical strategy (src/src/strategies/strategy.ts)
   =================================================================== -/

/-- MacdResult (src/src/indicators/macd.ts). -/
structure MacdResult where
  macd : ℚ
  signal : ℚ
  hist : ℚ
  histDelta : Option ℚ
deriving DecidableEq, Repr

/-- The macdSeries bundle field of TechnicalSignals. -/
structure MacdSeries where
  macd : List ℚ
  signal : List ℚ
  hist : List ℚ
deriving DecidableEq, Repr

/-- DeltaResult (src/src/indicators/delta.ts). -/
structure DeltaResult where
  delta1 : ℚ
  delta3 : ℚ
  deltaPercent1 : ℚ
  deltaPercent3 : ℚ
deriving DecidableEq, Repr

/-- ADXResult as consumed by strategy.ts (fields adx, plusDI, minusDI). -/
structure ADXResult where
  adx : ℚ
  plusDI : ℚ
  minusDI : ℚ
deriving DecidableEq, Repr

/-- TechnicalSignals.  The display-only imbalance field is unused by the
decision function and omitted. -/
structure TechnicalSignals where
  rsi : Option ℚ := none
  rsiSeries : Option (List ℚ) := none
  macd : Option MacdResult := none
  macdSeries : Option MacdSeries := none
  vwap : Option ℚ := none
  vwapSeries : Option (List ℚ) := none
  delta : Option DeltaResult := none
  price : ℚ
  priceSeries : Option (List ℚ) := none
  strikePrice : Option ℚ := none
  timeLeftMinutes : Option ℚ := none
  adx : Option ADXResult := none
deriving DecidableEq, Repr

/-- One tag per push site into the bullishSignals / bearishSignals arrays;
the decision logic only ever reads the lengths of those arrays. -/
inductive SignalTag
  | adxBull
  | adxBear
  | strikeBelowContext
  | strikeAboveContext
  | lowVolatility
  | highVolatility
  | strikeCrossUp
  | strikeCrossDown
  | macdCrossUp
  | macdCrossDown
  | macdHistAbove
  | macdHistBelow
  | vwapCrossUp
  | vwapCrossDown
  | priceAboveVwap
  | priceBelowVwap
  | rsiCrossUp
  | rsiCrossDown
  | rsiOversold
  | rsiOverbought
  | rsiBullish
  | rsiBearish
  | deltaUp
  | deltaDown
  | momentumConfirmedBull
  | momentumConfirmedBear
deriving DecidableEq, Repr

/-- BUY_YES / BUY_NO / NO_TRADE. -/
inductive TAction
  | buyYes
  | buyNo
  | noTrade
deriving DecidableEq, Repr

/-- One tag per return site of analyzeTechnicalSignals (its reason string). -/
inductive ReasonTag
  | tooCloseToExpiry
  | insufficientStrength
  | conflictingSignals
  | strikeCrossBullish
  | strikeCrossBearish
  | strongBullish
  | strongBearish
  | belowThreshold
deriving DecidableEq, Repr

/-- TechnicalDecision. -/
structure TechnicalDecision where
  action : TAction
  confidence : ℚ
  reason : ReasonTag
  bullish : List SignalTag
  bearish : List SignalTag
deriving DecidableEq, Repr

/-- JavaScript truthiness for an optional numeric field: present and nonzero. -/
def numTruthy : Option ℚ → Bool
  | none => false
  | some x => decide (x ≠ 0)

/-- Output of a multiplier step (steps 0, 1 and 3 of the strategy): the
multiplier together with the signal strings it pushed. -/
structure StepOut where
  mult : ℚ := 1
  bullSigs : List SignalTag := []
  bearSigs : List SignalTag := []
deriving DecidableEq, Repr

/-- STEP 0: the ADX confidence bonus. -/
def adxStep (s : TechnicalSignals) : StepOut :=
  match s.adx with
  | none => {}
  | some a =>
    if a.adx ≥ 22 then
      let diDifference := |a.plusDI - a.minusDI|
      if diDifference ≥ 3 then
        let adxMultiplier : ℚ :=
          if a.adx ≥ 40 then 1.3
          else if a.adx ≥ 30 then 1.2
          else if a.adx ≥ 25 then 1.15
          else 1.1
        if a.plusDI > a.minusDI then
          { mult := adxMultiplier, bullSigs := [SignalTag.adxBull] }
        else
          { mult := adxMultiplier, bearSigs := [SignalTag.adxBear] }
      else {}
    else {}

/-- STEP 1: strike-distance confidence and narrative signal. -/
def strikeStep (s : TechnicalSignals) : StepOut :=
  if numTruthy s.strikePrice && decide (s.price ≠ 0) then
    let strikeInfo := calculateStrikeDistance s.price (s.strikePrice.getD 0)
    let absPercent := |strikeInfo.percentage|
    let strikeDistanceConfidence : ℚ :=
      if absPercent < 0.1 then 1.2
      else if absPercent < 0.3 then 1.1
      else if absPercent < 0.5 then 1.0
      else if absPercent < 1.0 then 0.8
      else 0.6
    match strikeInfo.direction with
    | StrikeDirection.below =>
        { mult := strikeDistanceConfidence, bullSigs := [SignalTag.strikeBelowContext] }
    | StrikeDirection.above =>
        { mult := strikeDistanceConfidence, bearSigs := [SignalTag.strikeAboveContext] }
    | StrikeDirection.atStrike => { mult := strikeDistanceConfidence }
  else {}

/-- STEP 3: volatility multiplier from the 20-point standard deviation.
stdDevPercent = sqrt(variance) / price * 100; the two comparisons are decided
exactly: for price > 0, sqrt v * 100 / price < c iff sqrt v < c * price / 100,
decided by squaring; for price ≤ 0 the left side is ≤ 0, so the lower
comparison holds and the upper fails. -/
def volStep (s : TechnicalSignals) : StepOut :=
  match s.priceSeries with
  | none => {}
  | some ps =>
    if ps.length ≥ 20 then
      match calculateVariance ps 20 with
      | none => {}
      | some variance =>
        let lowVol := if 0 < s.price then sqrtLt variance (0.05 * s.price / 100) else true
        let highVol := if 0 < s.price then sqrtGt variance (0.2 * s.price / 100) else false
        if lowVol then { mult := 0.7, bearSigs := [SignalTag.lowVolatility] }
        else if highVol then { mult := 1.2, bullSigs := [SignalTag.highVolatility] }
        else {}
    else {}

/-- Output of one cross/momentum scoring block (steps 4A-4D and 5): the cross
flags, the score contributions and the pushed signals. -/
structure CrossBlock where
  upFlag : Bool := false
  downFlag : Bool := false
  bullAdd : ℚ := 0
  bearAdd : ℚ := 0
  bullSigs : List SignalTag := []
  bearSigs : List SignalTag := []
deriving DecidableEq, Repr

/-- STEP 4A: price × strike cross with gap (±8 points). -/
def strikeCrossBlock (cfg : TradingConfig) (s : TechnicalSignals) : CrossBlock :=
  match s.priceSeries with
  | none => {}
  | some ps =>
    if numTruthy s.strikePrice && decide (ps.length ≥ 2) then
      let strike := s.strikePrice.getD 0
      let gapPercent := cfg.strikeGapPercent / 100
      let strikeWithGapUp := strike * (1 + gapPercent)
      let strikeWithGapDown := strike * (1 - gapPercent)
      let up := crossAbove ps strikeWithGapUp 2
      let down := crossBelow ps strikeWithGapDown 2
      { upFlag := up
        downFlag := down
        bullAdd := if up then 8 else 0
        bearAdd := if down then 8 else 0
        bullSigs := if up then [SignalTag.strikeCrossUp] else []
        bearSigs := if down then [SignalTag.strikeCrossDown] else [] }
    else {}

/-- STEP 4B: MACD × signal cross (±5), histogram position fallback (±2). -/
def macdBlock (s : TechnicalSignals) : CrossBlock :=
  match s.macdSeries with
  | none => {}
  | some ms =>
    if ms.macd.length ≥ 2 && ms.signal.length ≥ 2 then
      let up := crossUp ms.macd ms.signal 2
      let down := crossDown ms.macd ms.signal 2
      let base : CrossBlock := { upFlag := up, downFlag := down }
      if up then { base with bullAdd := 5, bullSigs := [SignalTag.macdCrossUp] }
      else if down then { base with bearAdd := 5, bearSigs := [SignalTag.macdCrossDown] }
      else
        match s.macd with
        | none => base
        | some m =>
          if m.hist > 0 then { base with bullAdd := 2, bullSigs := [SignalTag.macdHistAbove] }
          else { base with bearAdd := 2, bearSigs := [SignalTag.macdHistBelow] }
    else {}

/-- STEP 4C: price × VWAP cross (±5), current-position fallback (±2). -/
def vwapBlock (s : TechnicalSignals) : CrossBlock :=
  match s.priceSeries, s.vwapSeries with
  | some ps, some vs =>
    if ps.length ≥ 2 && vs.length ≥ 2 then
      let up := crossUp ps vs 2
      let down := crossDown ps vs 2
      let base : CrossBlock := { upFlag := up, downFlag := down }
      if up then { base with bullAdd := 5, bullSigs := [SignalTag.vwapCrossUp] }
      else if down then { base with bearAdd := 5, bearSigs := [SignalTag.vwapCrossDown] }
      else if numTruthy s.vwap then
        if isAbove ps vs then { base with bullAdd := 2, bullSigs := [SignalTag.priceAboveVwap] }
        else { base with bearAdd := 2, bearSigs := [SignalTag.priceBelowVwap] }
      else base
    else {}
  | _, _ => {}

/-- STEP 4D: RSI × 50 cross (±4), extreme / lean levels fallback (±3 / ±1). -/
def rsiBlock (s : TechnicalSignals) : CrossBlock :=
  match s.rsiSeries with
  | none => {}
  | some rs =>
    if rs.length ≥ 2 then
      let up := crossAbove rs 50 2
      let down := crossBelow rs 50 2
      let base : CrossBlock := { upFlag := up, downFlag := down }
      if up then { base with bullAdd := 4, bullSigs := [SignalTag.rsiCrossUp] }
      else if down then { base with bearAdd := 4, bearSigs := [SignalTag.rsiCrossDown] }
      else
        match s.rsi with
        | none => base
        | some r =>
          if r < 30 then { base with bullAdd := 3, bullSigs := [SignalTag.rsiOversold] }
          else if r > 70 then { base with bearAdd := 3, bearSigs := [SignalTag.rsiOverbought] }
          else if r > 55 then { base with bullAdd := 1, bullSigs := [SignalTag.rsiBullish] }
          else if r < 45 then { base with bearAdd := 1, bearSigs := [SignalTag.rsiBearish] }
          else base
    else {}

/-- STEP 5: delta momentum over 3 candles (±2, cross flags unused). -/
def deltaBlock (s : TechnicalSignals) : CrossBlock :=
  match s.delta with
  | none => {}
  | some d =>
    if d.deltaPercent3 > 0.5 then { bullAdd := 2, bullSigs := [SignalTag.deltaUp] }
    else if d.deltaPercent3 < -0.5 then { bearAdd := 2, bearSigs := [SignalTag.deltaDown] }
    else {}

/-- STEP 7 of analyzeTechnicalSignals (final decision): takes the strike-cross
flags, the assembled signal lists, the two scores, and the already-multiplied
confidence factor strikeDistanceConfidence × volatilityMultiplier ×
adxMultiplier × momentumConfirmationMultiplier. -/
def decideFrom (upFlag downFlag : Bool)
    (bullishSignals bearishSignals : List SignalTag)
    (bullishScore bearishScore factor : ℚ) : TechnicalDecision :=
  let totalScore := bullishScore + bearishScore
  if totalScore < 8 then
    { action := TAction.noTrade, confidence := 0, reason := ReasonTag.insufficientStrength
      bullish := bullishSignals, bearish := bearishSignals }
  else
    let bullishBase := if totalScore > 0 then bullishScore / totalScore else 0.5
    let bearishBase := if totalScore > 0 then bearishScore / totalScore else 0.5
    let bullishConfidence := min (bullishBase * factor) 1.0
    let bearishConfidence := min (bearishBase * factor) 1.0
    let hasPriceStrikeCross := upFlag || downFlag
    let signalDifference := ((bullishSignals.length : ℤ) - (bearishSignals.length : ℤ)).natAbs
    if signalDifference < 2 && !hasPriceStrikeCross then
      { action := TAction.noTrade, confidence := max bullishConfidence bearishConfidence
        reason := ReasonTag.conflictingSignals
        bullish := bullishSignals, bearish := bearishSignals }
    else
      let bullishConfidence2 :=
        if upFlag then max bullishConfidence 0.75 else bullishConfidence
      let bearishConfidence2 :=
        if !upFlag && downFlag then max bearishConfidence 0.75 else bearishConfidence
      if upFlag && decide (bullishConfidence2 ≥ 0.70) then
        { action := TAction.buyYes, confidence := bullishConfidence2
          reason := ReasonTag.strikeCrossBullish
          bullish := bullishSignals, bearish := bearishSignals }
      else if downFlag && decide (bearishConfidence2 ≥ 0.70) then
        { action := TAction.buyNo, confidence := bearishConfidence2
          reason := ReasonTag.strikeCrossBearish
          bullish := bullishSignals, bearish := bearishSignals }
      else if decide (bullishConfidence2 ≥ 0.70)
          && decide (bullishSignals.length > bearishSignals.length) then
        { action := TAction.buyYes, confidence := bullishConfidence2
          reason := ReasonTag.strongBullish
          bullish := bullishSignals, bearish := bearishSignals }
      else if decide (bearishConfidence2 ≥ 0.70)
          && decide (bearishSignals.length > bullishSignals.length) then
        { action := TAction.buyNo, confidence := bearishConfidence2
          reason := ReasonTag.strongBearish
          bullish := bullishSignals, bearish := bearishSignals }
      else
        { action := TAction.noTrade, confidence := max bullishConfidence2 bearishConfidence2
          reason := ReasonTag.belowThreshold
          bullish := bullishSignals, bearish := bearishSignals }

/-- The momentum-confirmation test of STEP 6: a strike cross happened together
with at least one other cross (MACD, VWAP or RSI). -/
def restConfirmed (cfg : TradingConfig) (s : TechnicalSignals) : Bool :=
  ((strikeCrossBlock cfg s).upFlag || (strikeCrossBlock cfg s).downFlag) &&
    ((macdBlock s).upFlag || (macdBlock s).downFlag || (vwapBlock s).upFlag ||
      (vwapBlock s).downFlag || (rsiBlock s).upFlag || (rsiBlock s).downFlag)

/-- The bullish signal list accumulated by steps 3-6, appended to the
steps-0-1 list bull1, in source push order. -/
def restBullList (cfg : TradingConfig) (s : TechnicalSignals)
    (bull1 : List SignalTag) : List SignalTag :=
  bull1 ++ (volStep s).bullSigs ++ (strikeCrossBlock cfg s).bullSigs
    ++ (macdBlock s).bullSigs ++ (vwapBlock s).bullSigs ++ (rsiBlock s).bullSigs
    ++ (deltaBlock s).bullSigs
    ++ (if restConfirmed cfg s && (strikeCrossBlock cfg s).upFlag then
          [SignalTag.momentumConfirmedBull] else [])

/-- The bearish signal list accumulated by steps 3-6. -/
def restBearList (cfg : TradingConfig) (s : TechnicalSignals)
    (bear1 : List SignalTag) : List SignalTag :=
  bear1 ++ (volStep s).bearSigs ++ (strikeCrossBlock cfg s).bearSigs
    ++ (macdBlock s).bearSigs ++ (vwapBlock s).bearSigs ++ (rsiBlock s).bearSigs
    ++ (deltaBlock s).bearSigs
    ++ (if restConfirmed cfg s && !(strikeCrossBlock cfg s).upFlag then
          [SignalTag.momentumConfirmedBear] else [])

/-- bullishScore after steps 4-5. -/
def restBullScore (cfg : TradingConfig) (s : TechnicalSignals) : ℚ :=
  (strikeCrossBlock cfg s).bullAdd + (macdBlock s).bullAdd + (vwapBlock s).bullAdd
    + (rsiBlock s).bullAdd + (deltaBlock s).bullAdd

/-- bearishScore after steps 4-5. -/
def restBearScore (cfg : TradingConfig) (s : TechnicalSignals) : ℚ :=
  (strikeCrossBlock cfg s).bearAdd + (macdBlock s).bearAdd + (vwapBlock s).bearAdd
    + (rsiBlock s).bearAdd + (deltaBlock s).bearAdd

/-- The combined confidence factor: strikeDistanceConfidence ×
volatilityMultiplier × adxMultiplier × momentumConfirmationMultiplier. -/
def restFactor (cfg : TradingConfig) (s : TechnicalSignals)
    (adxMultiplier strikeDistanceConfidence : ℚ) : ℚ :=
  strikeDistanceConfidence * (volStep s).mult * adxMultiplier
    * (if restConfirmed cfg s then (1.3:ℚ) else 1.0)

/-- Steps 3-7 of analyzeTechnicalSignals (everything after the time gate),
taking the already-computed ADX multiplier, strike-distance confidence and
the signals pushed by steps 0-1. -/
def analyzeRest (cfg : TradingConfig) (s : TechnicalSignals)
    (adxMultiplier strikeDistanceConfidence : ℚ)
    (bull1 bear1 : List SignalTag) : TechnicalDecision :=
  decideFrom (strikeCrossBlock cfg s).upFlag (strikeCrossBlock cfg s).downFlag
    (restBullList cfg s bull1) (restBearList cfg s bear1)
    (restBullScore cfg s) (restBearScore cfg s)
    (restFactor cfg s adxMultiplier strikeDistanceConfidence)

/-- analyzeTechnicalSignals (src/src/strategies/strategy.ts): steps 0-1, then
the STEP 2 time gate, then the rest of the pipeline. -/
def analyzeTechnicalSignals (cfg : TradingConfig) (s : TechnicalSignals) : TechnicalDecision :=
  let a := adxStep s
  let k := strikeStep s
  let bull1 := a.bullSigs ++ k.bullSigs
  let bear1 := a.bearSigs ++ k.bearSigs
  match s.timeLeftMinutes with
  | some t =>
    if t < 5 then
      { action := TAction.noTrade, confidence := 0, reason := ReasonTag.tooCloseToExpiry
        bullish := bull1, bearish := bear1 }
    else analyzeRest cfg s a.mult k.mult bull1 bear1
  | none => analyzeRest cfg s a.mult k.mult bull1 bear1

/- ===================================================================
   Order executor (src/src/services/orderExecutor.ts)
   =================================================================== -/

/-- A market side. -/
inductive Side
  | yes
  | no
deriving DecidableEq, Repr

/-- Position: one leg of a market bet. -/
structure Position where
  ticker : String
  side : Side
  quantity : ℚ
  entryPrice : ℚ
  entryTime : ℤ
  fees : ℚ
  strategy : String
  strikePrice : Option ℚ := none
deriving DecidableEq, Repr

/-- ArbitragePosition: the ledger entry for a market.  The status field keeps
the source's string values "open" / "closed" / "partial". -/
structure ArbitragePosition where
  ticker : String
  yesSide : Option Position := none
  noSide : Option Position := none
  totalCost : ℚ
  expectedProfit : ℚ
  entryTime : ℤ
  status : String
deriving DecidableEq, Repr

/-- Lookup in an association list standing in for a JS Map. -/
def mapFind {α β : Type} [DecidableEq α] (k : α) (m : List (α × β)) : Option β :=
  (m.find? (fun p => decide (p.1 = k))).map (fun p => p.2)

/-- Map.set: update in place when the key exists, else append. -/
def mapSet {α β : Type} [DecidableEq α] (k : α) (v : β) (m : List (α × β)) : List (α × β) :=
  if (mapFind k m).isSome then m.map (fun p => if p.1 = k then (k, v) else p)
  else m ++ [(k, v)]

/-- Map.delete. -/
def mapErase {α β : Type} [DecidableEq α] (k : α) (m : List (α × β)) : List (α × β) :=
  m.filter (fun p => !(decide (p.1 = k)))

/-- The per-candle per-asset counters for the two strategy types. -/
structure CandleCounts where
  arbitrage : Nat := 0
  technical : Nat := 0
deriving DecidableEq, Repr

/-- The strategy type of an order (derived from forceSide in the source). -/
inductive StrategyType
  | arbitrage
  | technical
deriving DecidableEq, Repr

/-- The mutable fields of the OrderExecutor instance. -/
structure ExecState where
  arbitragePositions : List (String × ArbitragePosition) := []
  orderIds : List (String × List String) := []
  positionsByCandle : List (ℤ × List (String × CandleCounts)) := []
  failedOrdersByCandle : List (ℤ × List (String × Nat)) := []
  candleIntervalMs : ℤ := 15 * 60 * 1000
  lastCandleTimestamp : ℤ := 0
deriving DecidableEq, Repr

/-- The fixed 0.7 percent taker fee. -/
def KALSHI_FEE_RATE : ℚ := 0.007

/-- roundToCandle: floor-divide the timestamp by the candle width. -/
def roundToCandle (intervalMs ts : ℤ) : ℤ := ts.fdiv intervalMs * intervalMs

/-- extractSeriesTicker: the leading [A-Z0-9]+ run when followed by a dash,
else the whole ticker (the regex match of the source). -/
def extractSeriesTicker (marketTicker : String) : String :=
  let cs := marketTicker.toList
  let run := cs.takeWhile (fun c =>
    (decide ('A' ≤ c) && decide (c ≤ 'Z')) ||
    (decide ('0' ≤ c) && decide (c ≤ '9')))
  let rest := cs.drop run.length
  if run.length > 0 && decide (rest.head? = some '-') then String.mk run
  else marketTicker

/-- getPositionsInCurrentCandle for one asset and strategy type. -/
def getPositionsInCurrentCandle (st : ExecState) (now : ℤ) (seriesTicker : String)
    (strategyType : StrategyType) : Nat :=
  let currentCandle := roundToCandle st.candleIntervalMs now
  let seriesMap := (mapFind currentCandle st.positionsByCandle).getD []
  let counts := (mapFind seriesTicker seriesMap).getD {}
  match strategyType with
  | StrategyType.arbitrage => counts.arbitrage
  | StrategyType.technical => counts.technical

/-- incrementCandlePositions: bump the counter and prune candles older than
four hours. -/
def incrementCandlePositions (st : ExecState) (now : ℤ) (seriesTicker : String)
    (strategyType : StrategyType) : ExecState :=
  let currentCandle := roundToCandle st.candleIntervalMs now
  let seriesMap := (mapFind currentCandle st.positionsByCandle).getD []
  let counts := (mapFind seriesTicker seriesMap).getD {}
  let counts2 := match strategyType with
    | StrategyType.arbitrage => { counts with arbitrage := counts.arbitrage + 1 }
    | StrategyType.technical => { counts with technical := counts.technical + 1 }
  let m2 := mapSet currentCandle (mapSet seriesTicker counts2 seriesMap) st.positionsByCandle
  let fourHoursAgo := now - 4 * 60 * 60 * 1000
  { st with positionsByCandle := m2.filter (fun p => !(decide (p.1 < fourHoursAgo))) }

/-- trackFailedOrder: bump the retry counter for the ticker in the current
candle and prune candles older than four hours. -/
def trackFailedOrder (st : ExecState) (now : ℤ) (ticker : String) : ExecState :=
  let currentCandle := roundToCandle st.candleIntervalMs now
  let failedOrders := (mapFind currentCandle st.failedOrdersByCandle).getD []
  let currentCount := (mapFind ticker failedOrders).getD 0
  let m2 := mapSet currentCandle (mapSet ticker (currentCount + 1) failedOrders)
    st.failedOrdersByCandle
  let fourHoursAgo := now - 4 * 60 * 60 * 1000
  { st with failedOrdersByCandle := m2.filter (fun p => !(decide (p.1 < fourHoursAgo))) }

/-- The retry counter executeArbitrage reads for a ticker in the current candle. -/
def retryCountOf (st : ExecState) (now : ℤ) (ticker : String) : Nat :=
  (mapFind ticker
    ((mapFind (roundToCandle st.candleIntervalMs now) st.failedOrdersByCandle).getD [])).getD 0

/-- The cleanup pattern used on a closed, expired or unverifiable market:
drop the failed-order entry for the ticker in the current candle and drop the
candle entry when it becomes empty. -/
def clearFailedForTicker (st : ExecState) (now : ℤ) (ticker : String) : ExecState :=
  let currentCandle := roundToCandle st.candleIntervalMs now
  match mapFind currentCandle st.failedOrdersByCandle with
  | none => st
  | some failedOrders =>
    if (mapFind ticker failedOrders).isSome then
      let failedOrders2 := mapErase ticker failedOrders
      if failedOrders2.length = 0 then
        { st with failedOrdersByCandle := mapErase currentCandle st.failedOrdersByCandle }
      else
        { st with failedOrdersByCandle :=
            mapSet currentCandle failedOrders2 st.failedOrdersByCandle }
    else st

/-- A collaborator response that can also fail (a thrown error). -/
inductive ApiResult (α : Type) where
  | ok (value : α)
  | err
deriving DecidableEq, Repr

/-- The market fields read by executeArbitrage. -/
structure MarketInfo where
  status : Option String := none
  closeTime : Option ℤ := none
deriving DecidableEq, Repr

/-- The order-creation response fields read by placeOrder. -/
structure OrderApiResp where
  orderId : Option String := none
  status : String := ""
deriving DecidableEq, Repr

/-- The external collaborator responses consumed by one executeArbitrage call,
plus the (frozen) current time.  market1 is the initial lookup, market2 the
re-verification on a retry; yesOrder / noOrder are the createOrder outcomes
per side. -/
structure Env where
  market1 : ApiResult (Option MarketInfo)
  market2 : ApiResult (Option MarketInfo)
  balance : ApiResult ℚ
  yesOrder : ApiResult OrderApiResp
  noOrder : ApiResult OrderApiResp
  now : ℤ
deriving DecidableEq, Repr

/-- OrderConfig; action and type keep the source string unions. -/
structure OrderConfig where
  ticker : String
  side : Side
  action : String
  quantity : ℚ
  price : ℚ
  type : String
deriving DecidableEq, Repr

/-- JavaScript Math.round (floor of x + 1/2). -/
def jsRound (x : ℚ) : ℤ := Int.floor (x + 1 / 2)

/-- Result of placeOrder: the state (orderIds may grow), success, order id. -/
structure PlaceOut where
  state : ExecState
  success : Bool
  orderId : Option String := none
deriving DecidableEq, Repr

/-- placeOrder: the internal validations of the source (market type only,
buy price strictly inside (0, 1), positive quantity, sane buyMaxCost) and
the createOrder call, recording the order id on success. -/
def placeOrder (st : ExecState) (config : OrderConfig)
    (api : ApiResult OrderApiResp) : PlaceOut :=
  if config.type ≠ "market" then { state := st, success := false }
  else if config.action = "buy"
      && (decide (config.price ≤ 0) || decide (config.price ≥ 1.0)) then
    { state := st, success := false }
  else if config.action = "buy" && decide (config.quantity ≤ 0) then
    { state := st, success := false }
  else
    let invalidMax : Bool :=
      if config.action = "buy" then
        let pricePerContractCents := jsRound (config.price * 100)
        let totalCostCents := (pricePerContractCents : ℚ) * config.quantity
        let maxCostCents := Int.ceil (totalCostCents * 1.05)
        decide ((maxCostCents : ℚ) < config.quantity)
          || decide ((maxCostCents : ℚ) > 10000 * config.quantity)
      else false
    if invalidMax then { state := st, success := false }
    else
      match api with
      | ApiResult.err => { state := st, success := false }
      | ApiResult.ok resp =>
        match resp.orderId with
        | none => { state := st, success := false }
        | some oid =>
          if oid = "" then { state := st, success := false }
          else
            let existingOrders := (mapFind config.ticker st.orderIds).getD []
            { state := { st with
                orderIds := mapSet config.ticker (existingOrders ++ [oid]) st.orderIds }
              success := true
              orderId := some oid }

/-- One tag per return site of executeArbitrage, identifying the branch that
produced the result. -/
inductive ExecEvent
  | marketFetchError
  | marketClosed
  | marketExpired
  | existingPosition
  | retryMarketClosed
  | retryMarketError
  | maxRetriesReached
  | positionLimitReached
  | invalidArbitrage
  | insufficientBalance
  | bothLegsPlaced
  | yesLegOnly
  | noLegOnly
  | bothLegsFailed
  | singleLegPlaced
  | singleLegFailed
deriving DecidableEq, Repr

/-- The events of an order attempt that was placed but did not fully succeed. -/
def ExecEvent.isFailedPlacement : ExecEvent → Bool
  | ExecEvent.yesLegOnly => true
  | ExecEvent.noLegOnly => true
  | ExecEvent.bothLegsFailed => true
  | ExecEvent.singleLegFailed => true
  | _ => false

/-- The events of a precondition rejection, which happen before any order is
sent to the exchange. -/
def ExecEvent.isPreOrderRejection : ExecEvent → Bool
  | ExecEvent.marketFetchError => true
  | ExecEvent.marketClosed => true
  | ExecEvent.marketExpired => true
  | ExecEvent.existingPosition => true
  | ExecEvent.retryMarketClosed => true
  | ExecEvent.retryMarketError => true
  | ExecEvent.maxRetriesReached => true
  | ExecEvent.positionLimitReached => true
  | ExecEvent.invalidArbitrage => true
  | ExecEvent.insufficientBalance => true
  | _ => false

/-- Result of one executeArbitrage call with its branch event. -/
structure ExecOut where
  state : ExecState
  result : Option ArbitragePosition
  event : ExecEvent
deriving DecidableEq, Repr

/-- The two-leg placement of executeArbitrage: both legs, full success
populates the ledger entry and bumps the candle counter; otherwise the
retry counter is bumped and null is returned. -/
def execPlaceBoth (st : ExecState) (env : Env) (ticker : String)
    (yesPrice noPrice quantity : ℚ) (seriesTicker : String)
    (strategyType : StrategyType) : ExecOut :=
  let yesOut := placeOrder st
    { ticker := ticker, side := Side.yes, action := "buy", quantity := quantity,
      price := yesPrice, type := "market" } env.yesOrder
  let noOut := placeOrder yesOut.state
    { ticker := ticker, side := Side.no, action := "buy", quantity := quantity,
      price := noPrice, type := "market" } env.noOrder
  if yesOut.success && noOut.success then
    let yesFee := yesPrice * KALSHI_FEE_RATE
    let noFee := noPrice * KALSHI_FEE_RATE
    let totalCost := yesPrice + yesFee + (noPrice + noFee)
    let arbPosition : ArbitragePosition :=
      { ticker := ticker
        yesSide := some
          { ticker := ticker, side := Side.yes, quantity := quantity,
            entryPrice := yesPrice, entryTime := env.now, fees := yesFee,
            strategy := "Arbitrage" }
        noSide := some
          { ticker := ticker, side := Side.no, quantity := quantity,
            entryPrice := noPrice, entryTime := env.now, fees := noFee,
            strategy := "Arbitrage" }
        totalCost := totalCost
        expectedProfit := 1.0 - totalCost
        entryTime := env.now
        status := "open" }
    let st2 := { noOut.state with
      arbitragePositions := mapSet ticker arbPosition noOut.state.arbitragePositions }
    { state := incrementCandlePositions st2 env.now seriesTicker strategyType
      result := some arbPosition
      event := ExecEvent.bothLegsPlaced }
  else
    let ev := if yesOut.success then ExecEvent.yesLegOnly
      else if noOut.success then ExecEvent.noLegOnly
      else ExecEvent.bothLegsFailed
    { state := trackFailedOrder noOut.state env.now ticker
      result := none
      event := ev }

/-- The single-leg placement of executeArbitrage (forced side, or the cheaper
side). -/
def execPlaceSingle (st : ExecState) (env : Env) (ticker : String)
    (yesPrice noPrice quantity : ℚ) (forceSide : Option Side)
    (strikePrice : Option ℚ) (seriesTicker : String)
    (strategyType : StrategyType) : ExecOut :=
  let side := forceSide.getD (if yesPrice < noPrice then Side.yes else Side.no)
  let price := if side = Side.yes then yesPrice else noPrice
  let api := if side = Side.yes then env.yesOrder else env.noOrder
  let orderOut := placeOrder st
    { ticker := ticker, side := side, action := "buy", quantity := quantity,
      price := price, type := "market" } api
  if orderOut.success then
    let fee := price * KALSHI_FEE_RATE
    let strategyName :=
      if forceSide.isSome then "Technical-Directional" else "Arbitrage-SingleSide"
    let position : Position :=
      { ticker := ticker, side := side, quantity := quantity, entryPrice := price,
        entryTime := env.now, fees := fee, strategy := strategyName,
        strikePrice := strikePrice }
    let arbPosition : ArbitragePosition :=
      { ticker := ticker
        yesSide := if side = Side.yes then some position else none
        noSide := if side = Side.yes then none else some position
        totalCost := price + fee
        expectedProfit := 1.0 - (price + fee)
        entryTime := env.now
        status := "open" }
    let st2 := { orderOut.state with
      arbitragePositions := mapSet ticker arbPosition orderOut.state.arbitragePositions }
    { state := incrementCandlePositions st2 env.now seriesTicker strategyType
      result := some arbPosition
      event := ExecEvent.singleLegPlaced }
  else
    { state := trackFailedOrder orderOut.state env.now ticker
      result := none
      event := ExecEvent.singleLegFailed }

/-- The gates of executeArbitrage after the market and ledger checks: retry
cap, per-candle position limit, the two-leg cost sanity check, the fail-open
balance check, then order placement. -/
def execGates (cfg : TradingConfig) (st : ExecState) (env : Env) (ticker : String)
    (yesPrice noPrice quantity : ℚ) (bothSides : Bool) (forceSide : Option Side)
    (strikePrice : Option ℚ) : ExecOut :=
  let retryCount := retryCountOf st env.now ticker
  if retryCount ≥ cfg.maxOrderRetries then
    { state := st, result := none, event := ExecEvent.maxRetriesReached }
  else
    let strategyType :=
      if forceSide.isSome then StrategyType.technical else StrategyType.arbitrage
    let maxPositions := match strategyType with
      | StrategyType.arbitrage => cfg.maxArbitragePositions
      | StrategyType.technical => cfg.maxTechnicalPositions
    let seriesTicker := extractSeriesTicker ticker
    let positionsInCandle := getPositionsInCurrentCandle st env.now seriesTicker strategyType
    if positionsInCandle ≥ maxPositions then
      { state := st, result := none, event := ExecEvent.positionLimitReached }
    else
      let totalCost := (yesPrice + noPrice + (yesPrice + noPrice) * KALSHI_FEE_RATE) * quantity
      if bothSides && decide (totalCost / quantity ≥ 1.0) then
        { state := st, result := none, event := ExecEvent.invalidArbitrage }
      else
        let balanceBlocks := match env.balance with
          | ApiResult.ok availableBalance => decide (availableBalance < totalCost)
          | ApiResult.err => false
        if balanceBlocks then
          { state := st, result := none, event := ExecEvent.insufficientBalance }
        else if bothSides then
          execPlaceBoth st env ticker yesPrice noPrice quantity seriesTicker strategyType
        else
          execPlaceSingle st env ticker yesPrice noPrice quantity forceSide strikePrice
            seriesTicker strategyType

/-- The ledger and retry checks of executeArbitrage after the market check.
Taken directly from the source: an existing ledger entry rejects the call
without mutation; a pending retry re-verifies the market first. -/
def execAfterMarketCheck (cfg : TradingConfig) (st : ExecState) (env : Env)
    (ticker : String) (yesPrice noPrice quantity : ℚ) (bothSides : Bool)
    (forceSide : Option Side) (strikePrice : Option ℚ) : ExecOut :=
  match mapFind ticker st.arbitragePositions with
  | some _ => { state := st, result := none, event := ExecEvent.existingPosition }
  | none =>
    let retryCount := retryCountOf st env.now ticker
    if retryCount > 0 then
      match env.market2 with
      | ApiResult.err =>
        { state := clearFailedForTicker st env.now ticker, result := none
          event := ExecEvent.retryMarketError }
      | ApiResult.ok market =>
        let marketStatus := market.bind (fun m => m.status)
        if ¬(marketStatus = some "open" ∨ marketStatus = some "active") then
          { state := clearFailedForTicker st env.now ticker, result := none
            event := ExecEvent.retryMarketClosed }
        else
          execGates cfg st env ticker yesPrice noPrice quantity bothSides forceSide strikePrice
    else
      execGates cfg st env ticker yesPrice noPrice quantity bothSides forceSide strikePrice

/-- executeArbitrage with an event telling which return site produced the
result.  The market status check runs first; a closed or expired market also
clears the failed-order tracking for the ticker. -/
def executeArbitrageFull (cfg : TradingConfig) (st : ExecState) (env : Env)
    (ticker : String) (yesPrice noPrice : ℚ) (quantity : ℚ) (bothSides : Bool)
    (forceSide : Option Side) (strikePrice : Option ℚ) : ExecOut :=
  match env.market1 with
  | ApiResult.err => { state := st, result := none, event := ExecEvent.marketFetchError }
  | ApiResult.ok market =>
    let marketStatus := market.bind (fun m => m.status)
    if ¬(marketStatus = some "open" ∨ marketStatus = some "active") then
      { state := clearFailedForTicker st env.now ticker, result := none
        event := ExecEvent.marketClosed }
    else
      match market.bind (fun m => m.closeTime) with
      | some closeTime =>
        if env.now ≥ closeTime then
          { state := clearFailedForTicker st env.now ticker, result := none
            event := ExecEvent.marketExpired }
        else
          execAfterMarketCheck cfg st env ticker yesPrice noPrice quantity bothSides
            forceSide strikePrice
      | none =>
        execAfterMarketCheck cfg st env ticker yesPrice noPrice quantity bothSides
          forceSide strikePrice

/-- The public executeArbitrage: new state and the created position or null. -/
def executeArbitrage (cfg : TradingConfig) (st : ExecState) (env : Env)
    (ticker : String) (yesPrice noPrice : ℚ) (quantity : ℚ) (bothSides : Bool)
    (forceSide : Option Side) (strikePrice : Option ℚ) :
    ExecState × Option ArbitragePosition :=
  let out := executeArbitrageFull cfg st env ticker yesPrice noPrice quantity bothSides
    forceSide strikePrice
  (out.state, out.result)

/-- One tag per return site of shouldCloseEarly (its reason string); the
stdev reasons carry the tier level reported. -/
inductive CloseReason
  | noPositionFound
  | stopLossTechnicalYes
  | stopLossTechnicalNo
  | yesStdevMove (level : Nat)
  | yesProfitTarget
  | noStdevMove (level : Nat)
  | noProfitTarget
  | pricesNormalized
  | stopLossYes
  | stopLossNo
  | holdUntilExpiry
deriving DecidableEq, Repr

/-- The closure decision returned by shouldCloseEarly. -/
structure CloseDecision where
  shouldClose : Bool
  shouldCloseYes : Option Bool := none
  shouldCloseNo : Option Bool := none
  reason : CloseReason
  profit : Option ℚ := none
deriving DecidableEq, Repr

/-- The standalone leg profit used by shouldCloseEarly: fee-adjusted sell
value at the current ask minus the fee-inclusive entry cost. -/
def legProfit (p : Position) (currentPrice : ℚ) : ℚ :=
  (currentPrice - currentPrice * KALSHI_FEE_RATE) * p.quantity
    - (p.entryPrice + p.fees) * p.quantity

/-- The percent move of the last price of the history from its first price
(the approximate entry). -/
def priceMovePercent (priceHistory : List ℚ) : ℚ :=
  let currentPrice := seriesGet priceHistory (priceHistory.length - 1)
  let entryPrice := seriesGet priceHistory 0
  |currentPrice - entryPrice| / entryPrice * 100

/-- The stdev tier reached by the move, checked from the highest tier down
(0 when no tier is reached), as in the source if-chain. -/
def stdevLevelReached (cfg : TradingConfig) (movePercent : ℚ) : Nat :=
  if movePercent ≥ cfg.stdevLevels.stdev4 then 4
  else if movePercent ≥ cfg.stdevLevels.stdev3 then 3
  else if movePercent ≥ cfg.stdevLevels.stdev2 then 2
  else if movePercent ≥ cfg.stdevLevels.stdev1 then 1
  else 0

/-- The technical stop-loss checks at the top of shouldCloseEarly: only for
single-sided positions with a strike snapshot and a price history. -/
def techStopCheck (arbPosition : ArbitragePosition)
    (priceHistory : Option (List ℚ)) : Option CloseDecision :=
  let isTechnicalPosition :=
    (arbPosition.yesSide.isSome && !arbPosition.noSide.isSome) ||
    (arbPosition.noSide.isSome && !arbPosition.yesSide.isSome)
  match priceHistory with
  | none => none
  | some h =>
    if isTechnicalPosition && decide (h.length > 0) then
      let currentPrice := seriesGet h (h.length - 1)
      let yesStop : Option CloseDecision :=
        match arbPosition.yesSide with
        | some yp =>
          if numTruthy yp.strikePrice && !arbPosition.noSide.isSome then
            let strikePrice := yp.strikePrice.getD 0
            if currentPrice ≤ strikePrice * (1 + 0.0005) then
              some
                { shouldClose := true, shouldCloseYes := some true,
                  shouldCloseNo := some false,
                  reason := CloseReason.stopLossTechnicalYes, profit := some 0 }
            else none
          else none
        | none => none
      match yesStop with
      | some d => some d
      | none =>
        match arbPosition.noSide with
        | some np =>
          if numTruthy np.strikePrice && !arbPosition.yesSide.isSome then
            let strikePrice := np.strikePrice.getD 0
            if currentPrice ≥ strikePrice * (1 - 0.0005) then
              some
                { shouldClose := true, shouldCloseYes := some false,
                  shouldCloseNo := some true,
                  reason := CloseReason.stopLossTechnicalNo, profit := some 0 }
            else none
          else none
        | none => none
    else none

/-- The per-leg profit checks of shouldCloseEarly: the stdev-tier exit is
checked first, then the absolute profit target, per leg. -/
def legProfitCheck (cfg : TradingConfig) (movePercent : Option ℚ) (legProfitValue : ℚ)
    (stdevReason : Nat → CloseReason) (targetReason : CloseReason) : Option CloseDecision :=
  let stdevHit : Option CloseDecision :=
    match movePercent with
    | some mp =>
      if decide (legProfitValue > 0) && decide (stdevLevelReached cfg mp ≠ 0) then
        some
          { shouldClose := true, shouldCloseYes := some true, shouldCloseNo := some true,
            reason := stdevReason (stdevLevelReached cfg mp),
            profit := some legProfitValue }
      else none
    | none => none
  match stdevHit with
  | some d => some d
  | none =>
    if legProfitValue ≥ cfg.profitTargetUsd then
      some
        { shouldClose := true, shouldCloseYes := some true, shouldCloseNo := some true,
          reason := targetReason, profit := some legProfitValue }
    else none

/-- The legacy 15 percent stop loss for one-sided exposure, and the default
hold decision. -/
def legacyStopCheck (arbPosition : ArbitragePosition)
    (currentYesPrice currentNoPrice : ℚ) : CloseDecision :=
  let hold : CloseDecision := { shouldClose := false, reason := CloseReason.holdUntilExpiry }
  let afterYes : CloseDecision :=
    match arbPosition.noSide with
    | some np =>
      if !arbPosition.yesSide.isSome then
        let loss := np.entryPrice - currentNoPrice
        let lossPercent := loss / np.entryPrice * 100
        if lossPercent > 15 then
          { shouldClose := true, shouldCloseYes := some false, shouldCloseNo := some true,
            reason := CloseReason.stopLossNo, profit := some (-loss) }
        else hold
      else hold
    | none => hold
  match arbPosition.yesSide with
  | some yp =>
    if !arbPosition.noSide.isSome then
      let loss := yp.entryPrice - currentYesPrice
      let lossPercent := loss / yp.entryPrice * 100
      if lossPercent > 15 then
        { shouldClose := true, shouldCloseYes := some true, shouldCloseNo := some false,
          reason := CloseReason.stopLossYes, profit := some (-loss) }
      else afterYes
    else afterYes
  | none => afterYes

/-- shouldCloseEarly: stop loss for technical positions, stdev-tier and
profit-target exits per leg (YES leg first), price normalization for two-leg
positions, legacy stop loss, else hold. -/
def shouldCloseEarly (cfg : TradingConfig) (st : ExecState) (ticker : String)
    (currentYesPrice currentNoPrice : ℚ) (priceHistory : Option (List ℚ)) : CloseDecision :=
  match mapFind ticker st.arbitragePositions with
  | none => { shouldClose := false, reason := CloseReason.noPositionFound }
  | some arbPosition =>
    match techStopCheck arbPosition priceHistory with
    | some d => d
    | none =>
      let movePercent : Option ℚ :=
        match priceHistory with
        | some h => if h.length > 0 then some (priceMovePercent h) else none
        | none => none
      let yesCheck : Option CloseDecision :=
        match arbPosition.yesSide with
        | some yp =>
          legProfitCheck cfg movePercent (legProfit yp currentYesPrice)
            CloseReason.yesStdevMove CloseReason.yesProfitTarget
        | none => none
      match yesCheck with
      | some d => d
      | none =>
        let noCheck : Option CloseDecision :=
          match arbPosition.noSide with
          | some np =>
            legProfitCheck cfg movePercent (legProfit np currentNoPrice)
              CloseReason.noStdevMove CloseReason.noProfitTarget
          | none => none
        match noCheck with
        | some d => d
        | none =>
          let currentTotal := currentYesPrice + currentNoPrice
          let isNormalized := |(1.0:ℚ) - currentTotal| < 0.02
          let normalized : Option CloseDecision :=
            if isNormalized && arbPosition.yesSide.isSome && arbPosition.noSide.isSome then
              let yesSellValue := currentYesPrice - currentYesPrice * KALSHI_FEE_RATE
              let noSellValue := currentNoPrice - currentNoPrice * KALSHI_FEE_RATE
              let profit := yesSellValue + noSellValue - arbPosition.totalCost
              if profit > 0 then
                some
                  { shouldClose := true, shouldCloseYes := some true,
                    shouldCloseNo := some true, reason := CloseReason.pricesNormalized,
                    profit := some profit }
              else none
            else none
          match normalized with
          | some d => d
          | none => legacyStopCheck arbPosition currentYesPrice currentNoPrice

/-- autoCleanupPositions: on the first call in a new candle the whole ledger
is cleared (the source guards on a non-empty map, with the same result); the
last-candle marker is then updated and the stale / closed sweep runs. -/
def autoCleanupPositions (cfg : TradingConfig) (st : ExecState) (now : ℤ) : ExecState :=
  let currentCandle := roundToCandle st.candleIntervalMs now
  let st1 :=
    if st.lastCandleTimestamp ≠ 0 ∧ currentCandle ≠ st.lastCandleTimestamp then
      { st with arbitragePositions := [] }
    else st
  let st2 := { st1 with lastCandleTimestamp := currentCandle }
  let maxAgeMs := cfg.autoClearMinutes * 60 * 1000
  { st2 with arbitragePositions :=
      st2.arbitragePositions.filter (fun p =>
        !(decide (now - p.2.entryTime > maxAgeMs)) && !(decide (p.2.status = "closed"))) }

/-- The state left by a sequence of executeArbitrage calls with fixed trade
arguments and varying collaborator responses. -/
def execTrace (cfg : TradingConfig) (ticker : String) (yesPrice noPrice quantity : ℚ)
    (bothSides : Bool) (forceSide : Option Side) (strikePrice : Option ℚ)
    (st : ExecState) (envs : List Env) : ExecState :=
  envs.foldl (fun s e =>
    (executeArbitrageFull cfg s e ticker yesPrice noPrice quantity bothSides forceSide
      strikePrice).state) st

/-- Every call of the sequence was an order attempt whose placement failed. -/
def allCallsFailed (cfg : TradingConfig) (ticker : String) (yesPrice noPrice quantity : ℚ)
    (bothSides : Bool) (forceSide : Option Side) (strikePrice : Option ℚ)
    (st : ExecState) : List Env → Prop
  | [] => True
  | e :: rest =>
    (executeArbitrageFull cfg st e ticker yesPrice noPrice quantity bothSides forceSide
      strikePrice).event.isFailedPlacement = true ∧
    allCallsFailed cfg ticker yesPrice noPrice quantity bothSides forceSide strikePrice
      (executeArbitrageFull cfg st e ticker yesPrice noPrice quantity bothSides forceSide
        strikePrice).state rest

/-- The state used by the C1 witness: the fresh executor state. -/
def c1State : ExecState := {}

/-- The collaborator responses used by the C1 witness: an open market, an
unavailable balance check (fail-open), and both order placements failing. -/
def c1Env : Env :=
  { market1 := ApiResult.ok (some { status := some "open" })
    market2 := ApiResult.ok (some { status := some "open" })
    balance := ApiResult.err
    yesOrder := ApiResult.err
    noOrder := ApiResult.err
    now := 1000000 }

/-- Environment used by the C3 witness: an open market and healthy balance. -/
def c3Env : Env :=
  { market1 := ApiResult.ok (some { status := some "open" })
    market2 := ApiResult.ok (some { status := some "open" })
    balance := ApiResult.ok 1000
    yesOrder := ApiResult.ok { orderId := some "o1" }
    noOrder := ApiResult.ok { orderId := some "o2" }
    now := 1000000 }

/-- A minimal ledger entry used by the C2 state. -/
def c2Position : ArbitragePosition :=
  { ticker := "KX-1"
    totalCost := 0.8
    expectedProfit := 0.2
    entryTime := 0
    status := "open" }

/-- The state used around C2: an existing position on the ticker together with
one pending retry in the current candle (reachable by one failed attempt, one
successful attempt). -/
def c2State : ExecState :=
  { arbitragePositions := [("KX-1", c2Position)]
    failedOrdersByCandle := [(900000, [("KX-1", 1)])] }

/-- The collaborator responses used around C2: the market now reports closed. -/
def c2Env : Env :=
  { market1 := ApiResult.ok (some { status := some "closed" })
    market2 := ApiResult.ok (some { status := some "closed" })
    balance := ApiResult.ok 1000
    yesOrder := ApiResult.ok { orderId := some "o1" }
    noOrder := ApiResult.ok { orderId := some "o2" }
    now := 1000000 }

/-- The YES leg used around C7. -/
def c7Yes : Position :=
  { ticker := "KX-1", side := Side.yes, quantity := 1000, entryPrice := 0.10,
    entryTime := 0, fees := 0.0007, strategy := "Arbitrage" }

/-- The NO leg used around C7. -/
def c7No : Position :=
  { ticker := "KX-1", side := Side.no, quantity := 1000, entryPrice := 0.85,
    entryTime := 0, fees := 0.006, strategy := "Arbitrage" }

/-- The two-leg ledger entry used around C7. -/
def c7Arb : ArbitragePosition :=
  { ticker := "KX-1"
    yesSide := some c7Yes
    noSide := some c7No
    totalCost := 0.9567
    expectedProfit := 0.0433
    entryTime := 0
    status := "open" }

/-- The state used around C7: the two-leg position on the ticker. -/
def c7State : ExecState :=
  { arbitragePositions := [("KX-1", c7Arb)] }

/-- The price history used around C7: a 0.06 percent move, reaching exactly
the first stdev tier. -/
def c7Hist : List ℚ := [100, 100.06]

/-- The NO-only leg used around C7 (no strike snapshot, so the technical stop
does not apply). -/
def c7NoLeg : Position :=
  { ticker := "KX-2", side := Side.no, quantity := 1000, entryPrice := 0.10,
    entryTime := 0, fees := 0.0007, strategy := "Arbitrage" }

/-- The NO-only ledger entry used around C7. -/
def c7ArbN : ArbitragePosition :=
  { ticker := "KX-2"
    yesSide := none
    noSide := some c7NoLeg
    totalCost := 0.1
    expectedProfit := 0.9
    entryTime := 0
    status := "open" }

/-- The state used around C7 for the NO-leg case. -/
def c7StateNo : ExecState :=
  { arbitragePositions := [("KX-2", c7ArbN)] }

/-- The state used by the C9 witness: a fresh open position (zero age, status
open, so the stale sweep alone would keep it) entered in the previous candle. -/
def c9State : ExecState :=
  { arbitragePositions := [("KX-1",
      { ticker := "KX-1", totalCost := 0.8, expectedProfit := 0.2,
        entryTime := 2000000, status := "open" })]
    lastCandleTimestamp := 900000 }


/- ===================================================================
   Helper lemmas about the strategy steps
   =================================================================== -/

theorem adxStep_mult_pos (s : TechnicalSignals) : 0 < (adxStep s).mult := by
  unfold adxStep
  repeat' split
  all_goals dsimp only
  all_goals try split_ifs
  all_goals repeat' split
  all_goals norm_num

theorem strikeStep_mult_pos (s : TechnicalSignals) : 0 < (strikeStep s).mult := by
  unfold strikeStep
  repeat' split
  all_goals dsimp only
  all_goals try split_ifs
  all_goals repeat' split
  all_goals norm_num

theorem volStep_mult_pos (s : TechnicalSignals) : 0 < (volStep s).mult := by
  unfold volStep
  repeat' split
  all_goals dsimp only
  all_goals try split_ifs
  all_goals repeat' split
  all_goals norm_num

theorem strikeCrossBlock_adds_nonneg (cfg : TradingConfig) (s : TechnicalSignals) :
    0 ≤ (strikeCrossBlock cfg s).bullAdd ∧ 0 ≤ (strikeCrossBlock cfg s).bearAdd := by
  unfold strikeCrossBlock
  repeat' split
  all_goals dsimp only
  all_goals try split_ifs
  all_goals repeat' split
  all_goals norm_num

theorem macdBlock_adds_nonneg (s : TechnicalSignals) :
    0 ≤ (macdBlock s).bullAdd ∧ 0 ≤ (macdBlock s).bearAdd := by
  unfold macdBlock
  repeat' split
  all_goals dsimp only
  all_goals try split_ifs
  all_goals repeat' split
  all_goals norm_num

theorem vwapBlock_adds_nonneg (s : TechnicalSignals) :
    0 ≤ (vwapBlock s).bullAdd ∧ 0 ≤ (vwapBlock s).bearAdd := by
  unfold vwapBlock
  repeat' split
  all_goals dsimp only
  all_goals try split_ifs
  all_goals repeat' split
  all_goals norm_num

theorem rsiBlock_adds_nonneg (s : TechnicalSignals) :
    0 ≤ (rsiBlock s).bullAdd ∧ 0 ≤ (rsiBlock s).bearAdd := by
  unfold rsiBlock
  repeat' split
  all_goals dsimp only
  all_goals try split_ifs
  all_goals repeat' split
  all_goals norm_num

theorem deltaBlock_adds_nonneg (s : TechnicalSignals) :
    0 ≤ (deltaBlock s).bullAdd ∧ 0 ≤ (deltaBlock s).bearAdd := by
  unfold deltaBlock
  repeat' split
  all_goals dsimp only
  all_goals try split_ifs
  all_goals repeat' split
  all_goals norm_num

theorem strikeCrossBlock_up_bullAdd (cfg : TradingConfig) (s : TechnicalSignals)
    (h : (strikeCrossBlock cfg s).upFlag = true) : (strikeCrossBlock cfg s).bullAdd = 8 := by
  unfold strikeCrossBlock at h ⊢
  repeat' split at h
  all_goals repeat' split
  all_goals simp_all

theorem strikeCrossBlock_down_bearAdd (cfg : TradingConfig) (s : TechnicalSignals)
    (h : (strikeCrossBlock cfg s).downFlag = true) : (strikeCrossBlock cfg s).bearAdd = 8 := by
  unfold strikeCrossBlock at h ⊢
  repeat' split at h
  all_goals repeat' split
  all_goals simp_all

set_option maxHeartbeats 2000000 in
/-- The decision always carries the signal lists it was given. -/
theorem decideFrom_lists (u d : Bool) (B R : List SignalTag) (bs rs f : ℚ) :
    (decideFrom u d B R bs rs f).bullish = B ∧ (decideFrom u d B R bs rs f).bearish = R := by
  simp only [decideFrom]
  split_ifs <;> exact ⟨rfl, rfl⟩

theorem decideFrom_up (d : Bool) (B R : List SignalTag) (bs rs f : ℚ)
    (h8 : 8 ≤ bs) (hr : 0 ≤ rs) :
    (decideFrom true d B R bs rs f).action = TAction.buyYes ∧
    0.75 ≤ (decideFrom true d B R bs rs f).confidence := by
  simp only [decideFrom, Bool.true_or, Bool.not_true, Bool.and_false, Bool.false_and,
    Bool.true_and, if_true]
  rw [if_neg (by linarith : ¬(bs + rs < 8))]
  rw [if_neg (by simp : ¬(false = true))]
  rw [if_pos (decide_eq_true (le_trans (by norm_num : (0.70:ℚ) ≤ 0.75) (le_max_right _ _)))]
  exact ⟨rfl, le_max_right _ _⟩

theorem decideFrom_down (B R : List SignalTag) (bs rs f : ℚ)
    (h8 : 8 ≤ rs) (hb : 0 ≤ bs) :
    (decideFrom false true B R bs rs f).action = TAction.buyNo ∧
    0.75 ≤ (decideFrom false true B R bs rs f).confidence := by
  simp only [decideFrom, Bool.false_or, Bool.not_true, Bool.and_false, Bool.false_and,
    Bool.not_false, Bool.and_true, Bool.true_and, Bool.false_eq_true, if_false, if_true]
  rw [if_neg (by linarith : ¬(bs + rs < 8))]
  rw [if_pos (decide_eq_true (le_trans (by norm_num : (0.70:ℚ) ≤ 0.75) (le_max_right _ _)))]
  exact ⟨rfl, le_max_right _ _⟩

set_option maxHeartbeats 1600000 in
theorem decideFrom_confidence_mem (u d : Bool) (B R : List SignalTag) (bs rs f : ℚ)
    (hb : 0 ≤ bs) (hr : 0 ≤ rs) (hf : 0 ≤ f) :
    0 ≤ (decideFrom u d B R bs rs f).confidence ∧
    (decideFrom u d B R bs rs f).confidence ≤ 1 := by
  have hbc : ∀ x : ℚ, 0 ≤ x →
      0 ≤ min ((if bs + rs > 0 then x / (bs + rs) else (0.5:ℚ)) * f) 1.0 ∧
      min ((if bs + rs > 0 then x / (bs + rs) else (0.5:ℚ)) * f) 1.0 ≤ 1 := by
    intro x hx
    have hbase : 0 ≤ (if bs + rs > 0 then x / (bs + rs) else (0.5:ℚ)) := by
      split
      · positivity
      · norm_num
    refine ⟨le_min (mul_nonneg hbase hf) (by norm_num), ?_⟩
    exact le_trans (min_le_right _ _) (by norm_num)
  have h1 := hbc bs hb
  have h2 := hbc rs hr
  have hmax : ∀ {a b : ℚ}, (0 ≤ a ∧ a ≤ 1) → (0 ≤ b ∧ b ≤ 1) → 0 ≤ max a b ∧ max a b ≤ 1 :=
    fun ha hb2 => ⟨le_trans ha.1 (le_max_left _ _), max_le ha.2 hb2.2⟩
  have hfl : ∀ {a : ℚ}, (0 ≤ a ∧ a ≤ 1) → 0 ≤ max a (0.75:ℚ) ∧ max a 0.75 ≤ 1 :=
    fun ha => ⟨le_trans (by norm_num) (le_max_right _ _), max_le ha.2 (by norm_num)⟩
  simp only [decideFrom]
  generalize hg1 : min ((if bs + rs > 0 then bs / (bs + rs) else (0.5:ℚ)) * f) 1.0 = c1
  generalize hg2 : min ((if bs + rs > 0 then rs / (bs + rs) else (0.5:ℚ)) * f) 1.0 = c2
  rw [hg1] at h1
  rw [hg2] at h2
  repeat' split
  all_goals obtain ⟨h1a, h1b⟩ := h1
  all_goals obtain ⟨h2a, h2b⟩ := h2
  all_goals constructor
  all_goals simp only [le_max_iff, max_le_iff]
  all_goals try norm_num
  all_goals tauto

theorem decideFrom_inv (u d : Bool) (B R : List SignalTag) (bs rs f : ℚ) :
    ((decideFrom u d B R bs rs f).action = TAction.buyYes →
      0.70 ≤ (decideFrom u d B R bs rs f).confidence ∧ (u = true ∨ B.length > R.length)) ∧
    ((decideFrom u d B R bs rs f).action = TAction.buyNo →
      0.70 ≤ (decideFrom u d B R bs rs f).confidence ∧ (d = true ∨ R.length > B.length)) := by
  simp only [decideFrom]
  generalize min ((if bs + rs > 0 then bs / (bs + rs) else (0.5:ℚ)) * f) 1.0 = c1
  generalize min ((if bs + rs > 0 then rs / (bs + rs) else (0.5:ℚ)) * f) 1.0 = c2
  repeat' split
  all_goals constructor
  all_goals intro hA
  all_goals simp_all [Bool.and_eq_true, decide_eq_true_eq, ge_iff_le]

/- ===================================================================
   Strategy helper lemmas for the claims
   =================================================================== -/

theorem crossAbove_crossBelow_exclusive (series : List ℚ) (tUp tDown : ℚ) (lookback : Nat)
    (h : tDown ≤ tUp) :
    ¬(crossAbove series tUp lookback = true ∧ crossBelow series tDown lookback = true) := by
  rintro ⟨ha, hb⟩
  unfold crossAbove at ha
  unfold crossBelow at hb
  split at ha
  · simp at ha
  · split at hb
    · simp at hb
    · simp only [Bool.and_eq_true, decide_eq_true_eq] at ha hb
      linarith [ha.1, hb.1]

theorem strikeCrossBlock_not_both (cfg : TradingConfig) (s : TechnicalSignals) (strike : ℚ)
    (hK : s.strikePrice = some strike) (hpos : 0 < strike) (hg : 0 ≤ cfg.strikeGapPercent) :
    ¬((strikeCrossBlock cfg s).upFlag = true ∧ (strikeCrossBlock cfg s).downFlag = true) := by
  rintro ⟨hu, hd⟩
  unfold strikeCrossBlock at hu hd
  cases hps : s.priceSeries with
  | none => rw [hps] at hu; simp at hu
  | some ps =>
    rw [hps] at hu hd
    dsimp only at hu hd
    by_cases hguard : (numTruthy s.strikePrice && decide (ps.length ≥ 2)) = true
    · rw [if_pos hguard] at hu hd
      dsimp only at hu hd
      rw [hK] at hu hd
      simp only [Option.getD_some] at hu hd
      exact crossAbove_crossBelow_exclusive ps (strike * (1 + cfg.strikeGapPercent / 100))
        (strike * (1 - cfg.strikeGapPercent / 100)) 2
        (by nlinarith [mul_nonneg hpos.le hg]) ⟨hu, hd⟩
    · rw [if_neg hguard] at hu
      simp at hu

theorem analyze_eq_rest (cfg : TradingConfig) (s : TechnicalSignals)
    (h : ∀ t, s.timeLeftMinutes = some t → ¬(t < 5)) :
    analyzeTechnicalSignals cfg s =
      analyzeRest cfg s (adxStep s).mult (strikeStep s).mult
        ((adxStep s).bullSigs ++ (strikeStep s).bullSigs)
        ((adxStep s).bearSigs ++ (strikeStep s).bearSigs) := by
  unfold analyzeTechnicalSignals
  cases ht : s.timeLeftMinutes with
  | none => rfl
  | some t =>
    dsimp only
    rw [if_neg (h t ht)]

theorem restBullScore_nonneg (cfg : TradingConfig) (s : TechnicalSignals) :
    0 ≤ restBullScore cfg s := by
  unfold restBullScore
  have h1 := (strikeCrossBlock_adds_nonneg cfg s).1
  have h2 := (macdBlock_adds_nonneg s).1
  have h3 := (vwapBlock_adds_nonneg s).1
  have h4 := (rsiBlock_adds_nonneg s).1
  have h5 := (deltaBlock_adds_nonneg s).1
  linarith

theorem restBearScore_nonneg (cfg : TradingConfig) (s : TechnicalSignals) :
    0 ≤ restBearScore cfg s := by
  unfold restBearScore
  have h1 := (strikeCrossBlock_adds_nonneg cfg s).2
  have h2 := (macdBlock_adds_nonneg s).2
  have h3 := (vwapBlock_adds_nonneg s).2
  have h4 := (rsiBlock_adds_nonneg s).2
  have h5 := (deltaBlock_adds_nonneg s).2
  linarith

theorem restBullScore_up (cfg : TradingConfig) (s : TechnicalSignals)
    (hup : (strikeCrossBlock cfg s).upFlag = true) : 8 ≤ restBullScore cfg s := by
  unfold restBullScore
  rw [strikeCrossBlock_up_bullAdd cfg s hup]
  have h2 := (macdBlock_adds_nonneg s).1
  have h3 := (vwapBlock_adds_nonneg s).1
  have h4 := (rsiBlock_adds_nonneg s).1
  have h5 := (deltaBlock_adds_nonneg s).1
  linarith

theorem restBearScore_down (cfg : TradingConfig) (s : TechnicalSignals)
    (hdown : (strikeCrossBlock cfg s).downFlag = true) : 8 ≤ restBearScore cfg s := by
  unfold restBearScore
  rw [strikeCrossBlock_down_bearAdd cfg s hdown]
  have h2 := (macdBlock_adds_nonneg s).2
  have h3 := (vwapBlock_adds_nonneg s).2
  have h4 := (rsiBlock_adds_nonneg s).2
  have h5 := (deltaBlock_adds_nonneg s).2
  linarith

theorem restFactor_nonneg (cfg : TradingConfig) (s : TechnicalSignals) (a k : ℚ)
    (ha : 0 ≤ a) (hk : 0 ≤ k) : 0 ≤ restFactor cfg s a k := by
  unfold restFactor
  have hv := (volStep_mult_pos s).le
  split <;> exact mul_nonneg (mul_nonneg (mul_nonneg hk hv) ha) (by norm_num)

/- ===================================================================
   Claims C4, C5, C6, C8, C10 about the technical strategy
   =================================================================== -/

/-- Claim C5: whenever timeLeftMinutes is defined and strictly below 5,
analyzeTechnicalSignals returns NO_TRADE with confidence 0 and the
insufficient-time reason, and its signal lists contain only the steps-0-1
context entries: no cross/momentum scoring has contributed. -/
theorem claim_C5_time_gate (cfg : TradingConfig) (s : TechnicalSignals) (t : ℚ)
    (ht : s.timeLeftMinutes = some t) (hlt : t < 5) :
    (analyzeTechnicalSignals cfg s).action = TAction.noTrade ∧
    (analyzeTechnicalSignals cfg s).confidence = 0 ∧
    (analyzeTechnicalSignals cfg s).reason = ReasonTag.tooCloseToExpiry ∧
    (analyzeTechnicalSignals cfg s).bullish = (adxStep s).bullSigs ++ (strikeStep s).bullSigs ∧
    (analyzeTechnicalSignals cfg s).bearish = (adxStep s).bearSigs ++ (strikeStep s).bearSigs := by
  unfold analyzeTechnicalSignals
  rw [ht]
  dsimp only
  rw [if_pos hlt]
  exact ⟨rfl, rfl, rfl, rfl, rfl⟩

/-- Witness for C5: minutesToExpiry 3 with otherwise-empty bundle. -/
theorem claim_C5_time_gate_witness :
    (analyzeTechnicalSignals defaultTradingConfig
        { price := 100, timeLeftMinutes := some 3 }).action = TAction.noTrade ∧
    (analyzeTechnicalSignals defaultTradingConfig
        { price := 100, timeLeftMinutes := some 3 }).confidence = 0 := by
  have h := claim_C5_time_gate defaultTradingConfig
    { price := 100, timeLeftMinutes := some 3 } 3 rfl (by norm_num)
  exact ⟨h.1, h.2.1⟩

/-- Claim C10: crossAbove and crossBelow can never both fire in the same call
when the upper threshold is at least the lower one; consequently, for a
positive strike and non-negative gap, the two strike-cross flags of the
strategy are mutually exclusive. -/
theorem claim_C10_cross_exclusive :
    (∀ (series : List ℚ) (tUp tDown : ℚ) (lookback : Nat), tDown ≤ tUp →
       ¬(crossAbove series tUp lookback = true ∧ crossBelow series tDown lookback = true)) ∧
    (∀ (cfg : TradingConfig) (s : TechnicalSignals) (strike : ℚ),
       s.strikePrice = some strike → 0 < strike → 0 ≤ cfg.strikeGapPercent →
       ¬((strikeCrossBlock cfg s).upFlag = true ∧ (strikeCrossBlock cfg s).downFlag = true)) :=
  ⟨crossAbove_crossBelow_exclusive, strikeCrossBlock_not_both⟩

/-- Bundle used by the C10 witness. -/
def c10Bundle : TechnicalSignals :=
  { price := 100.02, priceSeries := some [100, 100.02], strikePrice := some 100 }

/-- Witness for C10 at concrete inputs. -/
theorem claim_C10_cross_exclusive_witness :
    ¬(crossAbove [0, 2] 1 2 = true ∧ crossBelow [0, 2] 0 2 = true) ∧
    ¬((strikeCrossBlock defaultTradingConfig c10Bundle).upFlag = true ∧
      (strikeCrossBlock defaultTradingConfig c10Bundle).downFlag = true) :=
  ⟨claim_C10_cross_exclusive.1 [0, 2] 1 0 2 (by norm_num),
   claim_C10_cross_exclusive.2 defaultTradingConfig c10Bundle 100 rfl (by norm_num)
     (by norm_num [defaultTradingConfig])⟩

/-- Claim C4: when the time gate passes and the strike-cross detector fires
upward, the decision is BUY_YES with confidence at least 0.75; symmetrically
a downward strike cross yields BUY_NO with confidence at least 0.75
(for a positive strike and non-negative configured gap). -/
theorem claim_C4_strike_cross_forces (cfg : TradingConfig) (s : TechnicalSignals) (strike : ℚ)
    (hK : s.strikePrice = some strike) (hKpos : 0 < strike) (hg : 0 ≤ cfg.strikeGapPercent)
    (htime : ∀ t, s.timeLeftMinutes = some t → 5 ≤ t) :
    ((strikeCrossBlock cfg s).upFlag = true →
      (analyzeTechnicalSignals cfg s).action = TAction.buyYes ∧
      0.75 ≤ (analyzeTechnicalSignals cfg s).confidence) ∧
    ((strikeCrossBlock cfg s).downFlag = true →
      (analyzeTechnicalSignals cfg s).action = TAction.buyNo ∧
      0.75 ≤ (analyzeTechnicalSignals cfg s).confidence) := by
  rw [analyze_eq_rest cfg s (fun t ht => not_lt.mpr (htime t ht))]
  unfold analyzeRest
  constructor
  · intro hup
    rw [hup]
    exact decideFrom_up _ _ _ _ _ _ (restBullScore_up cfg s hup) (restBearScore_nonneg cfg s)
  · intro hdown
    have hup : (strikeCrossBlock cfg s).upFlag = false := by
      cases hu2 : (strikeCrossBlock cfg s).upFlag
      · rfl
      · exact absurd ⟨hu2, hdown⟩ (strikeCrossBlock_not_both cfg s strike hK hKpos hg)
    rw [hup, hdown]
    exact decideFrom_down _ _ _ _ _ (restBearScore_down cfg s hdown) (restBullScore_nonneg cfg s)

/-- Bundle used by the C4 witness: price series crossing up through the strike. -/
def c4Bundle : TechnicalSignals :=
  { price := 100.02, priceSeries := some [100, 100.02], strikePrice := some 100 }

/-- Witness for C4: the upward-cross bundle yields BUY_YES at 0.75+. -/
theorem claim_C4_strike_cross_forces_witness :
    (analyzeTechnicalSignals defaultTradingConfig c4Bundle).action = TAction.buyYes ∧
    (0.75:ℚ) ≤ (analyzeTechnicalSignals defaultTradingConfig c4Bundle).confidence :=
  (claim_C4_strike_cross_forces defaultTradingConfig c4Bundle 100 rfl (by norm_num)
      (by norm_num [defaultTradingConfig])
      (fun t ht => absurd ht (by simp [c4Bundle]))).1
    (by with_unfolding_all decide)

/-- Claim C8: the decision action is one of the three contract values and the
reported confidence always lies in the closed interval from 0 to 1. -/
theorem claim_C8_confidence_bounds (cfg : TradingConfig) (s : TechnicalSignals) :
    ((analyzeTechnicalSignals cfg s).action = TAction.buyYes ∨
     (analyzeTechnicalSignals cfg s).action = TAction.buyNo ∨
     (analyzeTechnicalSignals cfg s).action = TAction.noTrade) ∧
    0 ≤ (analyzeTechnicalSignals cfg s).confidence ∧
    (analyzeTechnicalSignals cfg s).confidence ≤ 1 := by
  refine ⟨?_, ?_⟩
  · cases h : (analyzeTechnicalSignals cfg s).action <;> simp
  · by_cases htg : ∃ t, s.timeLeftMinutes = some t ∧ t < 5
    · obtain ⟨t, ht, hlt⟩ := htg
      unfold analyzeTechnicalSignals
      rw [ht]
      dsimp only
      rw [if_pos hlt]
      norm_num
    · push_neg at htg
      rw [analyze_eq_rest cfg s (fun t ht => not_lt.mpr (htg t ht))]
      unfold analyzeRest
      exact decideFrom_confidence_mem _ _ _ _ _ _ _ (restBullScore_nonneg cfg s)
        (restBearScore_nonneg cfg s)
        (restFactor_nonneg cfg s _ _ (adxStep_mult_pos s).le (strikeStep_mult_pos s).le)

/-- Claim C6 (amended): BUY_YES is returned only when the final bullish
confidence clears 0.70 and EITHER an upward strike cross fired OR the bullish
signal count strictly exceeds the bearish one - the strike-cross branch,
checked first, does not require the signal-count majority; symmetrically for
BUY_NO. -/
theorem claim_C6_decision_threshold (cfg : TradingConfig) (s : TechnicalSignals) :
    ((analyzeTechnicalSignals cfg s).action = TAction.buyYes →
      0.70 ≤ (analyzeTechnicalSignals cfg s).confidence ∧
      ((strikeCrossBlock cfg s).upFlag = true ∨
        (analyzeTechnicalSignals cfg s).bullish.length >
          (analyzeTechnicalSignals cfg s).bearish.length)) ∧
    ((analyzeTechnicalSignals cfg s).action = TAction.buyNo →
      0.70 ≤ (analyzeTechnicalSignals cfg s).confidence ∧
      ((strikeCrossBlock cfg s).downFlag = true ∨
        (analyzeTechnicalSignals cfg s).bearish.length >
          (analyzeTechnicalSignals cfg s).bullish.length)) := by
  by_cases htg : ∃ t, s.timeLeftMinutes = some t ∧ t < 5
  · obtain ⟨t, ht, hlt⟩ := htg
    unfold analyzeTechnicalSignals
    rw [ht]
    dsimp only
    rw [if_pos hlt]
    constructor <;> intro hA <;> simp at hA
  · push_neg at htg
    rw [analyze_eq_rest cfg s (fun t ht => not_lt.mpr (htg t ht))]
    unfold analyzeRest
    have hinv := decideFrom_inv (strikeCrossBlock cfg s).upFlag (strikeCrossBlock cfg s).downFlag
      (restBullList cfg s ((adxStep s).bullSigs ++ (strikeStep s).bullSigs))
      (restBearList cfg s ((adxStep s).bearSigs ++ (strikeStep s).bearSigs))
      (restBullScore cfg s) (restBearScore cfg s)
      (restFactor cfg s (adxStep s).mult (strikeStep s).mult)
    have hlists := decideFrom_lists (strikeCrossBlock cfg s).upFlag (strikeCrossBlock cfg s).downFlag
      (restBullList cfg s ((adxStep s).bullSigs ++ (strikeStep s).bullSigs))
      (restBearList cfg s ((adxStep s).bearSigs ++ (strikeStep s).bearSigs))
      (restBullScore cfg s) (restBearScore cfg s)
      (restFactor cfg s (adxStep s).mult (strikeStep s).mult)
    constructor
    · intro hA
      obtain ⟨hc, hor⟩ := hinv.1 hA
      refine ⟨hc, ?_⟩
      rw [hlists.1, hlists.2]
      exact hor
    · intro hA
      obtain ⟨hc, hor⟩ := hinv.2 hA
      refine ⟨hc, ?_⟩
      rw [hlists.1, hlists.2]
      exact hor

/-- Bundle refuting C6 as frozen: an upward strike cross with four bearish
context signals; BUY_YES is returned with 1 bullish versus 5 bearish signals. -/
def c6Bundle : TechnicalSignals :=
  { price := 100.02
    priceSeries := some [100, 100.02]
    strikePrice := some 100
    macdSeries := some { macd := [1, 1], signal := [2, 2], hist := [0, 0] }
    macd := some { macd := 1, signal := 2, hist := -1, histDelta := none }
    vwapSeries := some [200, 200]
    vwap := some 200
    rsiSeries := some [40, 40]
    rsi := some 40
    delta := some { delta1 := 0, delta3 := 0, deltaPercent1 := 0, deltaPercent3 := -1 } }

/-- Counterexample to C6 as frozen: the returned action is BUY_YES although
the bullish signal count (1) does not strictly exceed the bearish count (5). -/
theorem claim_C6_counterexample :
    (analyzeTechnicalSignals defaultTradingConfig c6Bundle).action = TAction.buyYes ∧
    (analyzeTechnicalSignals defaultTradingConfig c6Bundle).bullish.length = 1 ∧
    (analyzeTechnicalSignals defaultTradingConfig c6Bundle).bearish.length = 5 := by
  with_unfolding_all decide

/-- Witness for the amended C6 at the same bundle. -/
theorem claim_C6_decision_threshold_witness :
    (0.70:ℚ) ≤ (analyzeTechnicalSignals defaultTradingConfig c6Bundle).confidence ∧
    ((strikeCrossBlock defaultTradingConfig c6Bundle).upFlag = true ∨
      (analyzeTechnicalSignals defaultTradingConfig c6Bundle).bullish.length >
        (analyzeTechnicalSignals defaultTradingConfig c6Bundle).bearish.length) :=
  (claim_C6_decision_threshold defaultTradingConfig c6Bundle).1 (by with_unfolding_all decide)

/- ===================================================================
   Executor map and counter lemmas
   =================================================================== -/

theorem mapFind_cons {α β : Type} [DecidableEq α] (k a : α) (b : β) (tl : List (α × β)) :
    mapFind k ((a, b) :: tl) = if a = k then some b else mapFind k tl := by
  unfold mapFind
  by_cases h : a = k
  · rw [List.find?_cons_of_pos _ (by simp [h])]
    simp [h]
  · rw [List.find?_cons_of_neg _ (by simp [h])]
    simp [h]

theorem mapFind_map_update {α β : Type} [DecidableEq α] (k : α) (v : β) (m : List (α × β)) :
    mapFind k (m.map (fun p => if p.1 = k then (k, v) else p)) =
      if (mapFind k m).isSome then some v else none := by
  induction m with
  | nil => simp [mapFind]
  | cons hd tl ih =>
    obtain ⟨a, b⟩ := hd
    by_cases h : a = k
    · subst h
      simp [mapFind_cons, ih]
    · simp only [List.map_cons]
      rw [if_neg h]
      rw [mapFind_cons, mapFind_cons]
      rw [if_neg h, if_neg h]
      exact ih

theorem mapFind_append_single {α β : Type} [DecidableEq α] (k : α) (v : β)
    (m : List (α × β)) (h : mapFind k m = none) :
    mapFind k (m ++ [(k, v)]) = some v := by
  induction m with
  | nil => simp [mapFind_cons]
  | cons hd tl ih =>
    obtain ⟨a, b⟩ := hd
    rw [List.cons_append, mapFind_cons]
    rw [mapFind_cons] at h
    by_cases ha : a = k
    · rw [if_pos ha] at h
      simp at h
    · rw [if_neg ha] at h ⊢
      exact ih h

theorem mapFind_mapSet_self {α β : Type} [DecidableEq α] (k : α) (v : β) (m : List (α × β)) :
    mapFind k (mapSet k v m) = some v := by
  unfold mapSet
  split
  · next hsome => rw [mapFind_map_update]; simp [hsome]
  · next hnone =>
    apply mapFind_append_single
    cases hmf : mapFind k m
    · rfl
    · rw [hmf] at hnone
      simp at hnone

theorem mapFind_filter_keys {β : Type} (k t : ℤ) (l : List (ℤ × β)) (hk : ¬(k < t)) :
    mapFind k (l.filter (fun p => !(decide (p.1 < t)))) = mapFind k l := by
  induction l with
  | nil => rfl
  | cons hd tl ih =>
    obtain ⟨a, b⟩ := hd
    by_cases ha : a < t
    · have hak : ¬(a = k) := fun he => hk (he ▸ ha)
      rw [List.filter_cons]
      rw [if_neg (by simp [ha])]
      rw [ih, mapFind_cons, if_neg hak]
    · rw [List.filter_cons]
      rw [if_pos (by simp [ha])]
      rw [mapFind_cons, mapFind_cons]
      by_cases hak : a = k
      · rw [if_pos hak, if_pos hak]
      · rw [if_neg hak, if_neg hak, ih]

theorem roundToCandle_not_pruned (iv now : ℤ) (hiv : 0 < iv) (hiv2 : iv ≤ 4 * 60 * 60 * 1000) :
    ¬(roundToCandle iv now < now - 4 * 60 * 60 * 1000) := by
  unfold roundToCandle
  have h1 : now.fdiv iv * iv + now.fmod iv = now := by
    rw [mul_comm]
    exact Int.fdiv_add_fmod now iv
  have h2 : now.fmod iv < iv := Int.fmod_lt_of_pos now hiv
  intro h
  linarith

theorem trackFailedOrder_fields (st : ExecState) (now : ℤ) (ticker : String) :
    (trackFailedOrder st now ticker).arbitragePositions = st.arbitragePositions ∧
    (trackFailedOrder st now ticker).positionsByCandle = st.positionsByCandle ∧
    (trackFailedOrder st now ticker).candleIntervalMs = st.candleIntervalMs :=
  ⟨rfl, rfl, rfl⟩

theorem clearFailedForTicker_fields (st : ExecState) (now : ℤ) (ticker : String) :
    (clearFailedForTicker st now ticker).arbitragePositions = st.arbitragePositions ∧
    (clearFailedForTicker st now ticker).positionsByCandle = st.positionsByCandle ∧
    (clearFailedForTicker st now ticker).candleIntervalMs = st.candleIntervalMs := by
  unfold clearFailedForTicker
  dsimp only
  repeat' split
  all_goals exact ⟨rfl, rfl, rfl⟩

theorem placeOrder_fields (st : ExecState) (config : OrderConfig) (api : ApiResult OrderApiResp) :
    (placeOrder st config api).state.arbitragePositions = st.arbitragePositions ∧
    (placeOrder st config api).state.positionsByCandle = st.positionsByCandle ∧
    (placeOrder st config api).state.failedOrdersByCandle = st.failedOrdersByCandle ∧
    (placeOrder st config api).state.candleIntervalMs = st.candleIntervalMs := by
  unfold placeOrder
  dsimp only
  repeat' split
  all_goals exact ⟨rfl, rfl, rfl, rfl⟩

theorem retryCountOf_congr (st st2 : ExecState) (now : ℤ) (ticker : String)
    (h1 : st2.failedOrdersByCandle = st.failedOrdersByCandle)
    (h2 : st2.candleIntervalMs = st.candleIntervalMs) :
    retryCountOf st2 now ticker = retryCountOf st now ticker := by
  unfold retryCountOf
  rw [h1, h2]

theorem trackFailedOrder_retryCount (st : ExecState) (now t0 : ℤ) (ticker : String)
    (hiv : 0 < st.candleIntervalMs) (hiv2 : st.candleIntervalMs ≤ 4 * 60 * 60 * 1000)
    (hc : roundToCandle st.candleIntervalMs t0 = roundToCandle st.candleIntervalMs now) :
    retryCountOf (trackFailedOrder st now ticker) t0 ticker =
      retryCountOf st t0 ticker + 1 := by
  unfold trackFailedOrder retryCountOf
  dsimp only
  rw [hc]
  rw [mapFind_filter_keys _ _ _ (roundToCandle_not_pruned st.candleIntervalMs now hiv hiv2)]
  rw [mapFind_mapSet_self]
  simp only [Option.getD_some]
  rw [mapFind_mapSet_self]
  simp

/- ===================================================================
   Executor failure-path lemmas
   =================================================================== -/

theorem execPlaceBoth_failed (st : ExecState) (env : Env) (ticker : String)
    (y n q : ℚ) (sr : String) (sty : StrategyType) (t0 : ℤ)
    (hiv : 0 < st.candleIntervalMs) (hiv2 : st.candleIntervalMs ≤ 4 * 60 * 60 * 1000)
    (hc : roundToCandle st.candleIntervalMs t0 = roundToCandle st.candleIntervalMs env.now) :
    (execPlaceBoth st env ticker y n q sr sty).event.isFailedPlacement = true →
    (execPlaceBoth st env ticker y n q sr sty).result = none ∧
    (execPlaceBoth st env ticker y n q sr sty).state.arbitragePositions =
      st.arbitragePositions ∧
    (execPlaceBoth st env ticker y n q sr sty).state.positionsByCandle =
      st.positionsByCandle ∧
    (execPlaceBoth st env ticker y n q sr sty).state.candleIntervalMs =
      st.candleIntervalMs ∧
    retryCountOf (execPlaceBoth st env ticker y n q sr sty).state t0 ticker =
      retryCountOf st t0 ticker + 1 := by
  simp only [execPlaceBoth]
  split
  · intro hfail
    simp [ExecEvent.isFailedPlacement] at hfail
  · intro _
    set st1 := (placeOrder st
      { ticker := ticker, side := Side.yes, action := "buy", quantity := q,
        price := y, type := "market" } env.yesOrder).state with hst1
    set st2 := (placeOrder st1
      { ticker := ticker, side := Side.no, action := "buy", quantity := q,
        price := n, type := "market" } env.noOrder).state with hst2
    have hf1 := placeOrder_fields st
      { ticker := ticker, side := Side.yes, action := "buy", quantity := q,
        price := y, type := "market" } env.yesOrder
    have hf2 := placeOrder_fields st1
      { ticker := ticker, side := Side.no, action := "buy", quantity := q,
        price := n, type := "market" } env.noOrder
    rw [← hst1] at hf1
    rw [← hst2] at hf2
    have hiv1 : st2.candleIntervalMs = st.candleIntervalMs := by
      rw [hf2.2.2.2, hf1.2.2.2]
    refine ⟨rfl, ?_, ?_, ?_, ?_⟩
    · show (trackFailedOrder st2 env.now ticker).arbitragePositions = st.arbitragePositions
      rw [(trackFailedOrder_fields st2 env.now ticker).1, hf2.1, hf1.1]
    · show (trackFailedOrder st2 env.now ticker).positionsByCandle = st.positionsByCandle
      rw [(trackFailedOrder_fields st2 env.now ticker).2.1, hf2.2.1, hf1.2.1]
    · show (trackFailedOrder st2 env.now ticker).candleIntervalMs = st.candleIntervalMs
      rw [(trackFailedOrder_fields st2 env.now ticker).2.2, hiv1]
    · show retryCountOf (trackFailedOrder st2 env.now ticker) t0 ticker =
        retryCountOf st t0 ticker + 1
      rw [trackFailedOrder_retryCount st2 env.now t0 ticker (by rw [hiv1]; exact hiv)
        (by rw [hiv1]; exact hiv2) (by rw [hiv1]; exact hc)]
      congr 1
      exact retryCountOf_congr st st2 t0 ticker (by rw [hf2.2.2.1, hf1.2.2.1]) hiv1

theorem trackFailed_state_concl (st X : ExecState) (now t0 : ℤ) (ticker : String)
    (hiv : 0 < st.candleIntervalMs) (hiv2 : st.candleIntervalMs ≤ 4 * 60 * 60 * 1000)
    (hc : roundToCandle st.candleIntervalMs t0 = roundToCandle st.candleIntervalMs now)
    (h1 : X.arbitragePositions = st.arbitragePositions)
    (h2 : X.positionsByCandle = st.positionsByCandle)
    (h3 : X.failedOrdersByCandle = st.failedOrdersByCandle)
    (h4 : X.candleIntervalMs = st.candleIntervalMs) :
    (trackFailedOrder X now ticker).arbitragePositions = st.arbitragePositions ∧
    (trackFailedOrder X now ticker).positionsByCandle = st.positionsByCandle ∧
    (trackFailedOrder X now ticker).candleIntervalMs = st.candleIntervalMs ∧
    retryCountOf (trackFailedOrder X now ticker) t0 ticker =
      retryCountOf st t0 ticker + 1 := by
  refine ⟨(trackFailedOrder_fields X now ticker).1.trans h1,
    (trackFailedOrder_fields X now ticker).2.1.trans h2,
    (trackFailedOrder_fields X now ticker).2.2.trans h4, ?_⟩
  rw [trackFailedOrder_retryCount X now t0 ticker (h4 ▸ hiv) (h4 ▸ hiv2) (h4 ▸ hc)]
  congr 1
  exact retryCountOf_congr st X t0 ticker h3 h4

theorem execPlaceSingle_failed (st : ExecState) (env : Env) (ticker : String)
    (y n q : ℚ) (fs : Option Side) (sp : Option ℚ) (sr : String) (sty : StrategyType)
    (t0 : ℤ)
    (hiv : 0 < st.candleIntervalMs) (hiv2 : st.candleIntervalMs ≤ 4 * 60 * 60 * 1000)
    (hc : roundToCandle st.candleIntervalMs t0 = roundToCandle st.candleIntervalMs env.now) :
    (execPlaceSingle st env ticker y n q fs sp sr sty).event.isFailedPlacement = true →
    (execPlaceSingle st env ticker y n q fs sp sr sty).result = none ∧
    (execPlaceSingle st env ticker y n q fs sp sr sty).state.arbitragePositions =
      st.arbitragePositions ∧
    (execPlaceSingle st env ticker y n q fs sp sr sty).state.positionsByCandle =
      st.positionsByCandle ∧
    (execPlaceSingle st env ticker y n q fs sp sr sty).state.candleIntervalMs =
      st.candleIntervalMs ∧
    retryCountOf (execPlaceSingle st env ticker y n q fs sp sr sty).state t0 ticker =
      retryCountOf st t0 ticker + 1 := by
  simp only [execPlaceSingle]
  repeat' split
  all_goals intro hfail
  all_goals first
    | exact ⟨rfl, trackFailed_state_concl st _ env.now t0 ticker hiv hiv2 hc
        (placeOrder_fields st _ _).1 (placeOrder_fields st _ _).2.1
        (placeOrder_fields st _ _).2.2.1 (placeOrder_fields st _ _).2.2.2⟩
    | simp [ExecEvent.isFailedPlacement] at hfail

theorem execGates_failed (cfg : TradingConfig) (st : ExecState) (env : Env)
    (ticker : String) (y n q : ℚ) (b : Bool) (fs : Option Side) (sp : Option ℚ) (t0 : ℤ)
    (hiv : 0 < st.candleIntervalMs) (hiv2 : st.candleIntervalMs ≤ 4 * 60 * 60 * 1000)
    (hc : roundToCandle st.candleIntervalMs t0 = roundToCandle st.candleIntervalMs env.now) :
    (execGates cfg st env ticker y n q b fs sp).event.isFailedPlacement = true →
    (execGates cfg st env ticker y n q b fs sp).result = none ∧
    (execGates cfg st env ticker y n q b fs sp).state.arbitragePositions =
      st.arbitragePositions ∧
    (execGates cfg st env ticker y n q b fs sp).state.positionsByCandle =
      st.positionsByCandle ∧
    (execGates cfg st env ticker y n q b fs sp).state.candleIntervalMs =
      st.candleIntervalMs ∧
    retryCountOf (execGates cfg st env ticker y n q b fs sp).state t0 ticker =
      retryCountOf st t0 ticker + 1 := by
  simp only [execGates]
  repeat' split
  all_goals intro hfail
  all_goals first
    | exact execPlaceBoth_failed st env ticker y n q _ _ t0 hiv hiv2 hc hfail
    | exact execPlaceSingle_failed st env ticker y n q fs sp _ _ t0 hiv hiv2 hc hfail
    | simp [ExecEvent.isFailedPlacement] at hfail

theorem execAfterMarketCheck_failed (cfg : TradingConfig) (st : ExecState) (env : Env)
    (ticker : String) (y n q : ℚ) (b : Bool) (fs : Option Side) (sp : Option ℚ) (t0 : ℤ)
    (hiv : 0 < st.candleIntervalMs) (hiv2 : st.candleIntervalMs ≤ 4 * 60 * 60 * 1000)
    (hc : roundToCandle st.candleIntervalMs t0 = roundToCandle st.candleIntervalMs env.now) :
    (execAfterMarketCheck cfg st env ticker y n q b fs sp).event.isFailedPlacement = true →
    (execAfterMarketCheck cfg st env ticker y n q b fs sp).result = none ∧
    (execAfterMarketCheck cfg st env ticker y n q b fs sp).state.arbitragePositions =
      st.arbitragePositions ∧
    (execAfterMarketCheck cfg st env ticker y n q b fs sp).state.positionsByCandle =
      st.positionsByCandle ∧
    (execAfterMarketCheck cfg st env ticker y n q b fs sp).state.candleIntervalMs =
      st.candleIntervalMs ∧
    retryCountOf (execAfterMarketCheck cfg st env ticker y n q b fs sp).state t0 ticker =
      retryCountOf st t0 ticker + 1 := by
  simp only [execAfterMarketCheck]
  repeat' split
  all_goals intro hfail
  all_goals first
    | exact execGates_failed cfg st env ticker y n q b fs sp t0 hiv hiv2 hc hfail
    | simp [ExecEvent.isFailedPlacement] at hfail

theorem executeArbitrageFull_failed (cfg : TradingConfig) (st : ExecState) (env : Env)
    (ticker : String) (y n q : ℚ) (b : Bool) (fs : Option Side) (sp : Option ℚ) (t0 : ℤ)
    (hiv : 0 < st.candleIntervalMs) (hiv2 : st.candleIntervalMs ≤ 4 * 60 * 60 * 1000)
    (hc : roundToCandle st.candleIntervalMs t0 = roundToCandle st.candleIntervalMs env.now) :
    (executeArbitrageFull cfg st env ticker y n q b fs sp).event.isFailedPlacement = true →
    (executeArbitrageFull cfg st env ticker y n q b fs sp).result = none ∧
    (executeArbitrageFull cfg st env ticker y n q b fs sp).state.arbitragePositions =
      st.arbitragePositions ∧
    (executeArbitrageFull cfg st env ticker y n q b fs sp).state.positionsByCandle =
      st.positionsByCandle ∧
    (executeArbitrageFull cfg st env ticker y n q b fs sp).state.candleIntervalMs =
      st.candleIntervalMs ∧
    retryCountOf (executeArbitrageFull cfg st env ticker y n q b fs sp).state t0 ticker =
      retryCountOf st t0 ticker + 1 := by
  simp only [executeArbitrageFull]
  repeat' split
  all_goals intro hfail
  all_goals first
    | exact execAfterMarketCheck_failed cfg st env ticker y n q b fs sp t0 hiv hiv2 hc hfail
    | simp [ExecEvent.isFailedPlacement] at hfail

theorem execTrace_failed (cfg : TradingConfig) (ticker : String) (y n q : ℚ)
    (b : Bool) (fs : Option Side) (sp : Option ℚ) :
    ∀ (envs : List Env) (st : ExecState) (t0 : ℤ),
    0 < st.candleIntervalMs → st.candleIntervalMs ≤ 4 * 60 * 60 * 1000 →
    allCallsFailed cfg ticker y n q b fs sp st envs →
    (∀ e ∈ envs, roundToCandle st.candleIntervalMs t0 =
      roundToCandle st.candleIntervalMs e.now) →
    (execTrace cfg ticker y n q b fs sp st envs).arbitragePositions =
      st.arbitragePositions ∧
    (execTrace cfg ticker y n q b fs sp st envs).positionsByCandle =
      st.positionsByCandle ∧
    (execTrace cfg ticker y n q b fs sp st envs).candleIntervalMs =
      st.candleIntervalMs ∧
    retryCountOf (execTrace cfg ticker y n q b fs sp st envs) t0 ticker =
      retryCountOf st t0 ticker + envs.length := by
  intro envs
  induction envs with
  | nil =>
    intro st t0 _ _ _ _
    exact ⟨rfl, rfl, rfl, by simp [execTrace]⟩
  | cons e rest ih =>
    intro st t0 hiv hiv2 hall hcand
    obtain ⟨hfail, hrest⟩ := hall
    have hstep := executeArbitrageFull_failed cfg st e ticker y n q b fs sp t0 hiv hiv2
      (hcand e (List.mem_cons_self e rest)) hfail
    have hiv1 : (executeArbitrageFull cfg st e ticker y n q b fs sp).state.candleIntervalMs =
        st.candleIntervalMs := hstep.2.2.2.1
    have htr : execTrace cfg ticker y n q b fs sp st (e :: rest) =
        execTrace cfg ticker y n q b fs sp
          (executeArbitrageFull cfg st e ticker y n q b fs sp).state rest := rfl
    have hnext := ih (executeArbitrageFull cfg st e ticker y n q b fs sp).state t0
      (by rw [hiv1]; exact hiv) (by rw [hiv1]; exact hiv2) hrest
      (by
        intro e2 he2
        rw [hiv1]
        exact hcand e2 (List.mem_cons_of_mem e he2))
    rw [htr]
    refine ⟨hnext.1.trans hstep.2.1, hnext.2.1.trans hstep.2.2.1,
      hnext.2.2.1.trans hiv1, ?_⟩
    rw [hnext.2.2.2, hstep.2.2.2.2, List.length_cons]
    omega

/-- Claim C1: when order placement does not fully succeed (any failed leg in
two-leg mode, or the failed single leg), executeArbitrage returns null, the
ledger and the per-candle position counters are untouched, and the retry
counter for the ticker in the current candle grows by exactly one; iterating
N such failed calls inside one candle leaves the position counters unchanged
and adds exactly N to the retry counter.  The candle width is assumed
positive and at most the four-hour pruning horizon, as the executor
configures it (15 minutes or 1 hour). -/
theorem claim_C1_failed_attempt_counters (cfg : TradingConfig) (st : ExecState) (env : Env)
    (ticker : String) (yesPrice noPrice quantity : ℚ) (bothSides : Bool)
    (forceSide : Option Side) (strikePrice : Option ℚ)
    (hiv : 0 < st.candleIntervalMs) (hiv2 : st.candleIntervalMs ≤ 4 * 60 * 60 * 1000) :
    ((executeArbitrageFull cfg st env ticker yesPrice noPrice quantity bothSides forceSide
        strikePrice).event.isFailedPlacement = true →
      (executeArbitrageFull cfg st env ticker yesPrice noPrice quantity bothSides forceSide
        strikePrice).result = none ∧
      (executeArbitrageFull cfg st env ticker yesPrice noPrice quantity bothSides forceSide
        strikePrice).state.arbitragePositions = st.arbitragePositions ∧
      (executeArbitrageFull cfg st env ticker yesPrice noPrice quantity bothSides forceSide
        strikePrice).state.positionsByCandle = st.positionsByCandle ∧
      retryCountOf (executeArbitrageFull cfg st env ticker yesPrice noPrice quantity bothSides
        forceSide strikePrice).state env.now ticker =
        retryCountOf st env.now ticker + 1) ∧
    (∀ (t0 : ℤ) (envs : List Env),
      allCallsFailed cfg ticker yesPrice noPrice quantity bothSides forceSide strikePrice
        st envs →
      (∀ e ∈ envs, roundToCandle st.candleIntervalMs t0 =
        roundToCandle st.candleIntervalMs e.now) →
      (execTrace cfg ticker yesPrice noPrice quantity bothSides forceSide strikePrice
        st envs).arbitragePositions = st.arbitragePositions ∧
      (execTrace cfg ticker yesPrice noPrice quantity bothSides forceSide strikePrice
        st envs).positionsByCandle = st.positionsByCandle ∧
      retryCountOf (execTrace cfg ticker yesPrice noPrice quantity bothSides forceSide
        strikePrice st envs) t0 ticker = retryCountOf st t0 ticker + envs.length) := by
  constructor
  · intro hfail
    have h := executeArbitrageFull_failed cfg st env ticker yesPrice noPrice quantity
      bothSides forceSide strikePrice env.now hiv hiv2 rfl hfail
    exact ⟨h.1, h.2.1, h.2.2.1, h.2.2.2.2⟩
  · intro t0 envs hall hcand
    have h := execTrace_failed cfg ticker yesPrice noPrice quantity bothSides forceSide
      strikePrice envs st t0 hiv hiv2 hall hcand
    exact ⟨h.1, h.2.1, h.2.2.2⟩

/-- Witness for C1: a two-leg attempt whose both legs fail returns null,
leaves the ledger and position counters empty, and sets the retry counter
to one. -/
theorem claim_C1_failed_attempt_counters_witness :
    (executeArbitrageFull defaultTradingConfig c1State c1Env "KX-1" 0.4 0.4 1 true none
      none).result = none ∧
    (executeArbitrageFull defaultTradingConfig c1State c1Env "KX-1" 0.4 0.4 1 true none
      none).state.arbitragePositions = c1State.arbitragePositions ∧
    (executeArbitrageFull defaultTradingConfig c1State c1Env "KX-1" 0.4 0.4 1 true none
      none).state.positionsByCandle = c1State.positionsByCandle ∧
    retryCountOf (executeArbitrageFull defaultTradingConfig c1State c1Env "KX-1" 0.4 0.4 1
      true none none).state c1Env.now "KX-1" = retryCountOf c1State c1Env.now "KX-1" + 1 :=
  (claim_C1_failed_attempt_counters defaultTradingConfig c1State c1Env "KX-1" 0.4 0.4 1
    true none none (by with_unfolding_all decide) (by with_unfolding_all decide)).1
    (by with_unfolding_all decide)

theorem execGates_invalid_arb (cfg : TradingConfig) (st : ExecState) (env : Env)
    (ticker : String) (y n q : ℚ) (fs : Option Side) (sp : Option ℚ)
    (hq : q ≠ 0) (hcost : y + n + (y + n) * KALSHI_FEE_RATE ≥ 1) :
    (execGates cfg st env ticker y n q true fs sp).result = none ∧
    (execGates cfg st env ticker y n q true fs sp).state = st ∧
    (execGates cfg st env ticker y n q true fs sp).event.isPreOrderRejection = true := by
  have hdiv : (y + n + (y + n) * KALSHI_FEE_RATE) * q / q = y + n + (y + n) * KALSHI_FEE_RATE :=
    mul_div_cancel_right₀ _ hq
  have h10 : (1.0 : ℚ) = 1 := by norm_num
  have hcond : (true && decide ((y + n + (y + n) * KALSHI_FEE_RATE) * q / q ≥ (1.0:ℚ)))
      = true := by
    simp only [Bool.true_and]
    exact decide_eq_true (by rw [ge_iff_le, h10, hdiv]; exact hcost)
  simp only [execGates]
  rw [if_pos hcond]
  repeat' split
  all_goals exact ⟨rfl, rfl, rfl⟩

/-- Claim C3: in two-leg mode with a nonzero quantity, a per-contract cost of
at least one dollar (yes + no plus the taker fee on both legs) always yields
null, no order placement (the rejection happens before any order is sent) and
no ledger mutation; a ledger entry can only be created when that cost is
strictly below one dollar. -/
theorem claim_C3_arbitrage_validity (cfg : TradingConfig) (st : ExecState) (env : Env)
    (ticker : String) (yesPrice noPrice quantity : ℚ) (forceSide : Option Side)
    (strikePrice : Option ℚ) (hq : quantity ≠ 0) :
    (yesPrice + noPrice + (yesPrice + noPrice) * KALSHI_FEE_RATE ≥ 1 →
      (executeArbitrageFull cfg st env ticker yesPrice noPrice quantity true forceSide
        strikePrice).result = none ∧
      (executeArbitrageFull cfg st env ticker yesPrice noPrice quantity true forceSide
        strikePrice).state.arbitragePositions = st.arbitragePositions ∧
      (executeArbitrageFull cfg st env ticker yesPrice noPrice quantity true forceSide
        strikePrice).event.isPreOrderRejection = true) ∧
    ((executeArbitrageFull cfg st env ticker yesPrice noPrice quantity true forceSide
        strikePrice).result.isSome = true →
      yesPrice + noPrice + (yesPrice + noPrice) * KALSHI_FEE_RATE < 1) := by
  have main : yesPrice + noPrice + (yesPrice + noPrice) * KALSHI_FEE_RATE ≥ 1 →
      (executeArbitrageFull cfg st env ticker yesPrice noPrice quantity true forceSide
        strikePrice).result = none ∧
      (executeArbitrageFull cfg st env ticker yesPrice noPrice quantity true forceSide
        strikePrice).state.arbitragePositions = st.arbitragePositions ∧
      (executeArbitrageFull cfg st env ticker yesPrice noPrice quantity true forceSide
        strikePrice).event.isPreOrderRejection = true := by
    intro hcost
    have hg := execGates_invalid_arb cfg st env ticker yesPrice noPrice quantity forceSide
      strikePrice hq hcost
    simp only [executeArbitrageFull, execAfterMarketCheck]
    repeat' split
    all_goals first
      | exact ⟨rfl, rfl, rfl⟩
      | exact ⟨rfl, (clearFailedForTicker_fields st env.now ticker).1, rfl⟩
      | exact ⟨hg.1, by rw [hg.2.1], hg.2.2⟩
  refine ⟨main, ?_⟩
  intro hsome
  rcases lt_or_ge (yesPrice + noPrice + (yesPrice + noPrice) * KALSHI_FEE_RATE) 1 with h | h
  · exact h
  · exfalso
    rw [(main h).1] at hsome
    simp at hsome

/-- Witness for C3: prices summing to 1.00 are rejected with no mutation. -/
theorem claim_C3_arbitrage_validity_witness :
    (executeArbitrageFull defaultTradingConfig ({} : ExecState) c3Env "KX-1" 0.5 0.5 1 true
      none none).result = none ∧
    (executeArbitrageFull defaultTradingConfig ({} : ExecState) c3Env "KX-1" 0.5 0.5 1 true
      none none).state.arbitragePositions = ({} : ExecState).arbitragePositions ∧
    (executeArbitrageFull defaultTradingConfig ({} : ExecState) c3Env "KX-1" 0.5 0.5 1 true
      none none).event.isPreOrderRejection = true :=
  (claim_C3_arbitrage_validity defaultTradingConfig {} c3Env "KX-1" 0.5 0.5 1 none none
    (by norm_num)).1 (by with_unfolding_all decide)

/-- Claim C2 (amended): when a ledger entry already exists for the ticker, the
call always returns null and leaves the ledger and the per-candle position
counters unchanged, and whenever the call actually reaches the
existing-position return site the whole state is untouched; however the
market-status check runs first, so a market that reports closed or is past
its close time still clears the ticker's retry counter even though a
position exists. -/
theorem claim_C2_existing_position (cfg : TradingConfig) (st : ExecState) (env : Env)
    (ticker : String) (yesPrice noPrice quantity : ℚ) (bothSides : Bool)
    (forceSide : Option Side) (strikePrice : Option ℚ)
    (hpos : (mapFind ticker st.arbitragePositions).isSome = true) :
    (executeArbitrageFull cfg st env ticker yesPrice noPrice quantity bothSides forceSide
      strikePrice).result = none ∧
    (executeArbitrageFull cfg st env ticker yesPrice noPrice quantity bothSides forceSide
      strikePrice).state.arbitragePositions = st.arbitragePositions ∧
    (executeArbitrageFull cfg st env ticker yesPrice noPrice quantity bothSides forceSide
      strikePrice).state.positionsByCandle = st.positionsByCandle ∧
    ((executeArbitrageFull cfg st env ticker yesPrice noPrice quantity bothSides forceSide
      strikePrice).event = ExecEvent.existingPosition →
      (executeArbitrageFull cfg st env ticker yesPrice noPrice quantity bothSides forceSide
        strikePrice).state = st) := by
  obtain ⟨p, hp⟩ := Option.isSome_iff_exists.mp hpos
  simp only [executeArbitrageFull, execAfterMarketCheck, hp]
  repeat' split
  all_goals first
    | exact ⟨rfl, rfl, rfl, fun _ => rfl⟩
    | exact ⟨rfl, (clearFailedForTicker_fields st env.now ticker).1,
        (clearFailedForTicker_fields st env.now ticker).2.1, fun h => nomatch h⟩

/-- Counterexample to C2 as frozen: with an existing position on the ticker
and a pending retry, a call made while the market reports closed returns null
but clears the retry counter from 1 to 0 — the counters are mutated despite
the existing position. -/
theorem claim_C2_counterexample :
    (mapFind "KX-1" c2State.arbitragePositions).isSome = true ∧
    (executeArbitrageFull defaultTradingConfig c2State c2Env "KX-1" 0.4 0.4 1 true none
      none).result = none ∧
    retryCountOf c2State c2Env.now "KX-1" = 1 ∧
    retryCountOf (executeArbitrageFull defaultTradingConfig c2State c2Env "KX-1" 0.4 0.4 1
      true none none).state c2Env.now "KX-1" = 0 := by
  with_unfolding_all decide

/-- Witness for the amended C2 at the concrete state and environment. -/
theorem claim_C2_existing_position_witness :
    (executeArbitrageFull defaultTradingConfig c2State c2Env "KX-1" 0.4 0.4 1 true none
      none).result = none ∧
    (executeArbitrageFull defaultTradingConfig c2State c2Env "KX-1" 0.4 0.4 1 true none
      none).state.arbitragePositions = c2State.arbitragePositions ∧
    (executeArbitrageFull defaultTradingConfig c2State c2Env "KX-1" 0.4 0.4 1 true none
      none).state.positionsByCandle = c2State.positionsByCandle ∧
    ((executeArbitrageFull defaultTradingConfig c2State c2Env "KX-1" 0.4 0.4 1 true none
      none).event = ExecEvent.existingPosition →
      (executeArbitrageFull defaultTradingConfig c2State c2Env "KX-1" 0.4 0.4 1 true none
        none).state = c2State) :=
  claim_C2_existing_position defaultTradingConfig c2State c2Env "KX-1" 0.4 0.4 1 true none
    none (by with_unfolding_all decide)

theorem legProfitCheck_stdev_first (cfg : TradingConfig) (mp v : ℚ)
    (sr : Nat → CloseReason) (tr : CloseReason) (lvl : Nat) (hv : 0 < v)
    (hlvl : stdevLevelReached cfg mp = lvl) (h0 : lvl ≠ 0) :
    legProfitCheck cfg (some mp) v sr tr =
      some { shouldClose := true, shouldCloseYes := some true, shouldCloseNo := some true,
             reason := sr lvl, profit := some v } := by
  have hcond : (decide (v > 0) && decide (lvl ≠ 0)) = true := by
    simp [hv, h0]
  simp only [legProfitCheck, hlvl]
  rw [if_pos hcond]

/-- Claim C7 (amended): when a held leg simultaneously satisfies the absolute
profit target and a stdev-tier condition (positive leg profit with a price
move reaching some tier), shouldCloseEarly closes both sides with that leg's
stdev-move reason at the reached tier: on each leg the tier check is
evaluated before the absolute profit target, so the tier reason wins, not
the profit-target reason; the YES leg is evaluated before the NO leg, so the
NO leg's satisfaction is reported whenever the YES side produces no per-leg
exit. -/
theorem claim_C7_exit_priority (cfg : TradingConfig) (st : ExecState) (ticker : String)
    (currentYesPrice currentNoPrice : ℚ) (h : List ℚ) (arb : ArbitragePosition)
    (lvl : Nat)
    (hfind : mapFind ticker st.arbitragePositions = some arb)
    (htech : techStopCheck arb (some h) = none)
    (hlen : 0 < h.length)
    (hlvl : stdevLevelReached cfg (priceMovePercent h) = lvl)
    (hlvl0 : lvl ≠ 0) :
    (∀ yp, arb.yesSide = some yp →
      0 < legProfit yp currentYesPrice →
      legProfit yp currentYesPrice ≥ cfg.profitTargetUsd →
      shouldCloseEarly cfg st ticker currentYesPrice currentNoPrice (some h) =
        { shouldClose := true, shouldCloseYes := some true, shouldCloseNo := some true,
          reason := CloseReason.yesStdevMove lvl,
          profit := some (legProfit yp currentYesPrice) }) ∧
    (∀ np, arb.noSide = some np →
      0 < legProfit np currentNoPrice →
      legProfit np currentNoPrice ≥ cfg.profitTargetUsd →
      (∀ yp, arb.yesSide = some yp →
        legProfitCheck cfg (some (priceMovePercent h)) (legProfit yp currentYesPrice)
          CloseReason.yesStdevMove CloseReason.yesProfitTarget = none) →
      shouldCloseEarly cfg st ticker currentYesPrice currentNoPrice (some h) =
        { shouldClose := true, shouldCloseYes := some true, shouldCloseNo := some true,
          reason := CloseReason.noStdevMove lvl,
          profit := some (legProfit np currentNoPrice) }) := by
  constructor
  · intro yp hyes hprofit _
    have hlpc := legProfitCheck_stdev_first cfg (priceMovePercent h)
      (legProfit yp currentYesPrice) CloseReason.yesStdevMove CloseReason.yesProfitTarget
      lvl hprofit hlvl hlvl0
    simp only [shouldCloseEarly, hfind, htech, hyes, gt_iff_lt, hlen, if_true, hlpc]
  · intro np hno hprofit _ hpass
    have hlpcN := legProfitCheck_stdev_first cfg (priceMovePercent h)
      (legProfit np currentNoPrice) CloseReason.noStdevMove CloseReason.noProfitTarget
      lvl hprofit hlvl hlvl0
    cases hny : arb.yesSide with
    | none =>
      simp only [shouldCloseEarly, hfind, htech, hny, hno, gt_iff_lt, hlen, if_true, hlpcN]
    | some yp =>
      have hp := hpass yp hny
      simp only [shouldCloseEarly, hfind, htech, hny, hno, gt_iff_lt, hlen, if_true,
        hp, hlpcN]

/-- Counterexample to C7 as frozen: a position whose YES leg meets the
absolute profit target (395.8 dollars at a 20 dollar target) while the price
history reaches the first stdev tier with positive profit; the returned
reason is the stdev-move reason, not the profit-target reason. -/
theorem claim_C7_counterexample :
    legProfit c7Yes 0.5 ≥ defaultTradingConfig.profitTargetUsd ∧
    0 < legProfit c7Yes 0.5 ∧
    stdevLevelReached defaultTradingConfig (priceMovePercent c7Hist) = 1 ∧
    (shouldCloseEarly defaultTradingConfig c7State "KX-1" 0.5 0.5 (some c7Hist)).reason
      = CloseReason.yesStdevMove 1 := by
  refine ⟨by with_unfolding_all decide, by with_unfolding_all decide,
    by with_unfolding_all decide, ?_⟩
  have hfind : mapFind "KX-1" c7State.arbitragePositions = some c7Arb := rfl
  have htech : techStopCheck c7Arb (some c7Hist) = none := rfl
  have hyes : c7Arb.yesSide = some c7Yes := rfl
  have hlen : 0 < c7Hist.length := by decide
  have hlpc := legProfitCheck_stdev_first defaultTradingConfig (priceMovePercent c7Hist)
    (legProfit c7Yes 0.5) CloseReason.yesStdevMove CloseReason.yesProfitTarget 1
    (by with_unfolding_all decide) (by with_unfolding_all decide) (by decide)
  simp only [shouldCloseEarly, hfind, htech, hyes, gt_iff_lt, hlen, if_true, hlpc]

/-- Witness for the amended C7: the YES-leg case at the two-leg position, and
the NO-leg case at the NO-only position. -/
theorem claim_C7_exit_priority_witness :
    (shouldCloseEarly defaultTradingConfig c7State "KX-1" 0.5 0.5 (some c7Hist) =
      { shouldClose := true, shouldCloseYes := some true, shouldCloseNo := some true,
        reason := CloseReason.yesStdevMove 1,
        profit := some (legProfit c7Yes 0.5) }) ∧
    (shouldCloseEarly defaultTradingConfig c7StateNo "KX-2" 0.5 0.5 (some c7Hist) =
      { shouldClose := true, shouldCloseYes := some true, shouldCloseNo := some true,
        reason := CloseReason.noStdevMove 1,
        profit := some (legProfit c7NoLeg 0.5) }) :=
  ⟨(claim_C7_exit_priority defaultTradingConfig c7State "KX-1" 0.5 0.5 c7Hist c7Arb 1
      rfl rfl (by decide) (by with_unfolding_all decide) (by decide)).1 c7Yes rfl
      (by with_unfolding_all decide) (by with_unfolding_all decide),
   (claim_C7_exit_priority defaultTradingConfig c7StateNo "KX-2" 0.5 0.5 c7Hist c7ArbN 1
      rfl rfl (by decide) (by with_unfolding_all decide) (by decide)).2 c7NoLeg rfl
      (by with_unfolding_all decide) (by with_unfolding_all decide)
      (fun yp hyp => nomatch hyp)⟩

/-- Claim C9: on the first autoCleanupPositions call after the candle bucket
changes (the last-candle marker is non-zero and differs from the rounded
current timestamp), the whole ledger is wiped — every position is removed
regardless of its age or status — and the marker is set to the current
candle. -/
theorem claim_C9_new_candle_wipe (cfg : TradingConfig) (st : ExecState) (now : ℤ)
    (h0 : st.lastCandleTimestamp ≠ 0)
    (hne : roundToCandle st.candleIntervalMs now ≠ st.lastCandleTimestamp) :
    (autoCleanupPositions cfg st now).arbitragePositions = [] ∧
    (autoCleanupPositions cfg st now).lastCandleTimestamp =
      roundToCandle st.candleIntervalMs now := by
  simp only [autoCleanupPositions]
  rw [if_pos ⟨h0, hne⟩]
  exact ⟨rfl, trivial⟩

/-- Witness for C9: a zero-age open position in the ledger is removed as soon
as the candle turns over. -/
theorem claim_C9_new_candle_wipe_witness :
    (autoCleanupPositions defaultTradingConfig c9State 2000000).arbitragePositions = [] ∧
    (autoCleanupPositions defaultTradingConfig c9State 2000000).lastCandleTimestamp =
      roundToCandle c9State.candleIntervalMs 2000000 :=
  claim_C9_new_candle_wipe defaultTradingConfig c9State 2000000
    (by with_unfolding_all decide) (by with_unfolding_all decide)
